import Mathlib

/-! Top Darjeeling address and identifier map.

A shallow embedding of `hw/top_darjeeling/sw/autogen/top_darjeeling.h`: the
peripheral and memory address constants, the PLIC interrupt and alert handler
enumerations, and the pinmux, pad, wakeup, reset and clock enumerations,
followed by the consistency properties proved about them.

The constants of the header carry the `u` suffix (32-bit unsigned); they are
embedded as natural numbers with the same value.
-/

namespace TopDarjeeling

/-! ## Address constants -/

def TOP_DARJEELING_UART0_BASE_ADDR : Nat := 0x30010000
def TOP_DARJEELING_UART0_SIZE_BYTES : Nat := 0x40
def TOP_DARJEELING_GPIO_BASE_ADDR : Nat := 0x30000000
def TOP_DARJEELING_GPIO_SIZE_BYTES : Nat := 0x100
def TOP_DARJEELING_SPI_DEVICE_BASE_ADDR : Nat := 0x30310000
def TOP_DARJEELING_SPI_DEVICE_SIZE_BYTES : Nat := 0x2000
def TOP_DARJEELING_I2C0_BASE_ADDR : Nat := 0x30080000
def TOP_DARJEELING_I2C0_SIZE_BYTES : Nat := 0x80
def TOP_DARJEELING_RV_TIMER_BASE_ADDR : Nat := 0x30100000
def TOP_DARJEELING_RV_TIMER_SIZE_BYTES : Nat := 0x200
def TOP_DARJEELING_OTP_CTRL_CORE_BASE_ADDR : Nat := 0x30130000
def TOP_DARJEELING_OTP_CTRL_CORE_SIZE_BYTES : Nat := 0x8000
def TOP_DARJEELING_OTP_MACRO_PRIM_BASE_ADDR : Nat := 0x30140000
def TOP_DARJEELING_OTP_MACRO_PRIM_SIZE_BYTES : Nat := 0x20
def TOP_DARJEELING_LC_CTRL_REGS_BASE_ADDR : Nat := 0x30150000
def TOP_DARJEELING_LC_CTRL_REGS_SIZE_BYTES : Nat := 0x100
def TOP_DARJEELING_ALERT_HANDLER_BASE_ADDR : Nat := 0x30160000
def TOP_DARJEELING_ALERT_HANDLER_SIZE_BYTES : Nat := 0x800
def TOP_DARJEELING_SPI_HOST0_BASE_ADDR : Nat := 0x30300000
def TOP_DARJEELING_SPI_HOST0_SIZE_BYTES : Nat := 0x40
def TOP_DARJEELING_PWRMGR_AON_BASE_ADDR : Nat := 0x30400000
def TOP_DARJEELING_PWRMGR_AON_SIZE_BYTES : Nat := 0x80
def TOP_DARJEELING_RSTMGR_AON_BASE_ADDR : Nat := 0x30410000
def TOP_DARJEELING_RSTMGR_AON_SIZE_BYTES : Nat := 0x80
def TOP_DARJEELING_CLKMGR_AON_BASE_ADDR : Nat := 0x30420000
def TOP_DARJEELING_CLKMGR_AON_SIZE_BYTES : Nat := 0x40
def TOP_DARJEELING_PINMUX_AON_BASE_ADDR : Nat := 0x30460000
def TOP_DARJEELING_PINMUX_AON_SIZE_BYTES : Nat := 0x800
def TOP_DARJEELING_AON_TIMER_AON_BASE_ADDR : Nat := 0x30470000
def TOP_DARJEELING_AON_TIMER_AON_SIZE_BYTES : Nat := 0x40
def TOP_DARJEELING_AST_BASE_ADDR : Nat := 0x30480000
def TOP_DARJEELING_AST_SIZE_BYTES : Nat := 0x400
def TOP_DARJEELING_SOC_PROXY_CORE_BASE_ADDR : Nat := 0x22030000
def TOP_DARJEELING_SOC_PROXY_CORE_SIZE_BYTES : Nat := 0x10
def TOP_DARJEELING_SOC_PROXY_CTN_BASE_ADDR : Nat := 0x40000000
def TOP_DARJEELING_SOC_PROXY_CTN_SIZE_BYTES : Nat := 0x40000000
def TOP_DARJEELING_SRAM_CTRL_RET_AON_REGS_BASE_ADDR : Nat := 0x30500000
def TOP_DARJEELING_SRAM_CTRL_RET_AON_REGS_SIZE_BYTES : Nat := 0x40
def TOP_DARJEELING_SRAM_CTRL_RET_AON_RAM_BASE_ADDR : Nat := 0x30600000
def TOP_DARJEELING_SRAM_CTRL_RET_AON_RAM_SIZE_BYTES : Nat := 0x1000
def TOP_DARJEELING_RV_DM_REGS_BASE_ADDR : Nat := 0x21200000
def TOP_DARJEELING_RV_DM_REGS_SIZE_BYTES : Nat := 0x10
def TOP_DARJEELING_RV_DM_MEM_BASE_ADDR : Nat := 0x40000
def TOP_DARJEELING_RV_DM_MEM_SIZE_BYTES : Nat := 0x1000
def TOP_DARJEELING_RV_PLIC_BASE_ADDR : Nat := 0x28000000
def TOP_DARJEELING_RV_PLIC_SIZE_BYTES : Nat := 0x8000000
def TOP_DARJEELING_AES_BASE_ADDR : Nat := 0x21100000
def TOP_DARJEELING_AES_SIZE_BYTES : Nat := 0x100
def TOP_DARJEELING_HMAC_BASE_ADDR : Nat := 0x21110000
def TOP_DARJEELING_HMAC_SIZE_BYTES : Nat := 0x2000
def TOP_DARJEELING_KMAC_BASE_ADDR : Nat := 0x21120000
def TOP_DARJEELING_KMAC_SIZE_BYTES : Nat := 0x1000
def TOP_DARJEELING_OTBN_BASE_ADDR : Nat := 0x21130000
def TOP_DARJEELING_OTBN_SIZE_BYTES : Nat := 0x10000
def TOP_DARJEELING_KEYMGR_DPE_BASE_ADDR : Nat := 0x21140000
def TOP_DARJEELING_KEYMGR_DPE_SIZE_BYTES : Nat := 0x100
def TOP_DARJEELING_CSRNG_BASE_ADDR : Nat := 0x21150000
def TOP_DARJEELING_CSRNG_SIZE_BYTES : Nat := 0x80
def TOP_DARJEELING_ENTROPY_SRC_BASE_ADDR : Nat := 0x21160000
def TOP_DARJEELING_ENTROPY_SRC_SIZE_BYTES : Nat := 0x100
def TOP_DARJEELING_EDN0_BASE_ADDR : Nat := 0x21170000
def TOP_DARJEELING_EDN0_SIZE_BYTES : Nat := 0x80
def TOP_DARJEELING_EDN1_BASE_ADDR : Nat := 0x21180000
def TOP_DARJEELING_EDN1_SIZE_BYTES : Nat := 0x80
def TOP_DARJEELING_SRAM_CTRL_MAIN_REGS_BASE_ADDR : Nat := 0x211C0000
def TOP_DARJEELING_SRAM_CTRL_MAIN_REGS_SIZE_BYTES : Nat := 0x40
def TOP_DARJEELING_SRAM_CTRL_MAIN_RAM_BASE_ADDR : Nat := 0x10000000
def TOP_DARJEELING_SRAM_CTRL_MAIN_RAM_SIZE_BYTES : Nat := 0x10000
def TOP_DARJEELING_SRAM_CTRL_MBOX_REGS_BASE_ADDR : Nat := 0x211D0000
def TOP_DARJEELING_SRAM_CTRL_MBOX_REGS_SIZE_BYTES : Nat := 0x40
def TOP_DARJEELING_SRAM_CTRL_MBOX_RAM_BASE_ADDR : Nat := 0x11000000
def TOP_DARJEELING_SRAM_CTRL_MBOX_RAM_SIZE_BYTES : Nat := 0x1000
def TOP_DARJEELING_ROM_CTRL0_REGS_BASE_ADDR : Nat := 0x211E0000
def TOP_DARJEELING_ROM_CTRL0_REGS_SIZE_BYTES : Nat := 0x80
def TOP_DARJEELING_ROM_CTRL0_ROM_BASE_ADDR : Nat := 0x8000
def TOP_DARJEELING_ROM_CTRL0_ROM_SIZE_BYTES : Nat := 0x8000
def TOP_DARJEELING_ROM_CTRL1_REGS_BASE_ADDR : Nat := 0x211E1000
def TOP_DARJEELING_ROM_CTRL1_REGS_SIZE_BYTES : Nat := 0x80
def TOP_DARJEELING_ROM_CTRL1_ROM_BASE_ADDR : Nat := 0x20000
def TOP_DARJEELING_ROM_CTRL1_ROM_SIZE_BYTES : Nat := 0x10000
def TOP_DARJEELING_DMA_BASE_ADDR : Nat := 0x22010000
def TOP_DARJEELING_DMA_SIZE_BYTES : Nat := 0x200
def TOP_DARJEELING_MBX0_CORE_BASE_ADDR : Nat := 0x22000000
def TOP_DARJEELING_MBX0_CORE_SIZE_BYTES : Nat := 0x80
def TOP_DARJEELING_MBX1_CORE_BASE_ADDR : Nat := 0x22000100
def TOP_DARJEELING_MBX1_CORE_SIZE_BYTES : Nat := 0x80
def TOP_DARJEELING_MBX2_CORE_BASE_ADDR : Nat := 0x22000200
def TOP_DARJEELING_MBX2_CORE_SIZE_BYTES : Nat := 0x80
def TOP_DARJEELING_MBX3_CORE_BASE_ADDR : Nat := 0x22000300
def TOP_DARJEELING_MBX3_CORE_SIZE_BYTES : Nat := 0x80
def TOP_DARJEELING_MBX4_CORE_BASE_ADDR : Nat := 0x22000400
def TOP_DARJEELING_MBX4_CORE_SIZE_BYTES : Nat := 0x80
def TOP_DARJEELING_MBX5_CORE_BASE_ADDR : Nat := 0x22000500
def TOP_DARJEELING_MBX5_CORE_SIZE_BYTES : Nat := 0x80
def TOP_DARJEELING_MBX6_CORE_BASE_ADDR : Nat := 0x22000600
def TOP_DARJEELING_MBX6_CORE_SIZE_BYTES : Nat := 0x80
def TOP_DARJEELING_MBX_JTAG_CORE_BASE_ADDR : Nat := 0x22000800
def TOP_DARJEELING_MBX_JTAG_CORE_SIZE_BYTES : Nat := 0x80
def TOP_DARJEELING_MBX_PCIE0_CORE_BASE_ADDR : Nat := 0x22040000
def TOP_DARJEELING_MBX_PCIE0_CORE_SIZE_BYTES : Nat := 0x80
def TOP_DARJEELING_MBX_PCIE1_CORE_BASE_ADDR : Nat := 0x22040100
def TOP_DARJEELING_MBX_PCIE1_CORE_SIZE_BYTES : Nat := 0x80
def TOP_DARJEELING_SOC_DBG_CTRL_CORE_BASE_ADDR : Nat := 0x30170000
def TOP_DARJEELING_SOC_DBG_CTRL_CORE_SIZE_BYTES : Nat := 0x20
def TOP_DARJEELING_RV_CORE_IBEX_CFG_BASE_ADDR : Nat := 0x211F0000
def TOP_DARJEELING_RV_CORE_IBEX_CFG_SIZE_BYTES : Nat := 0x800
def TOP_DARJEELING_CTN_BASE_ADDR : Nat := 0x40000000
def TOP_DARJEELING_CTN_SIZE_BYTES : Nat := 0x40000000
def TOP_DARJEELING_RAM_RET_AON_BASE_ADDR : Nat := 0x30600000
def TOP_DARJEELING_RAM_RET_AON_SIZE_BYTES : Nat := 0x1000
def TOP_DARJEELING_RAM_MAIN_BASE_ADDR : Nat := 0x10000000
def TOP_DARJEELING_RAM_MAIN_SIZE_BYTES : Nat := 0x10000
def TOP_DARJEELING_RAM_MBOX_BASE_ADDR : Nat := 0x11000000
def TOP_DARJEELING_RAM_MBOX_SIZE_BYTES : Nat := 0x1000
def TOP_DARJEELING_ROM0_BASE_ADDR : Nat := 0x8000
def TOP_DARJEELING_ROM0_SIZE_BYTES : Nat := 0x8000
def TOP_DARJEELING_ROM1_BASE_ADDR : Nat := 0x20000
def TOP_DARJEELING_ROM1_SIZE_BYTES : Nat := 0x10000
def TOP_DARJEELING_MMIO_BASE_ADDR : Nat := 0x21100000
def TOP_DARJEELING_MMIO_SIZE_BYTES : Nat := 0xF501000

/-! ## Regions -/

/-- One `*_BASE_ADDR` / `*_SIZE_BYTES` pair of the header.  `module` is the
module named in the doc comment (`uart0`, `otp_ctrl`, ...), `device` the device
of that module when the doc comment names one (`core device on otp_ctrl`) and
the empty string otherwise. -/
structure Region where
  module : String
  device : String
  base : Nat
  size : Nat
deriving DecidableEq, Repr

/-- The address `x` lies in the half-open range `[base, base + size)`. -/
def Region.contains (r : Region) (x : Nat) : Prop :=
  r.base ≤ x ∧ x < r.base + r.size

instance (r : Region) (x : Nat) : Decidable (r.contains x) := by
  unfold Region.contains; infer_instance

/-- Two regions overlap when some address lies in both ranges. -/
def Region.overlaps (a b : Region) : Prop :=
  ∃ x, a.contains x ∧ b.contains x

/-- Two regions are disjoint when no address lies in both ranges. -/
def Region.disjoint (a b : Region) : Prop :=
  ∀ x, ¬ (a.contains x ∧ b.contains x)

/-- Executable test of disjointness on the end points: one range ends at or
before the start of the other. -/
def Region.apart (a b : Region) : Bool :=
  decide (a.base + a.size ≤ b.base) || decide (b.base + b.size ≤ a.base)

/-- Same base address and same size. -/
def Region.coincides (a b : Region) : Prop :=
  a.base = b.base ∧ a.size = b.size

instance (a b : Region) : Decidable (a.coincides b) := by
  unfold Region.coincides; infer_instance

/-- The peripheral device regions of the header, in declaration order
(`uart0` ... `cfg device on rv_core_ibex`). -/
def peripherals : List Region := [
  ⟨"uart0", "", TOP_DARJEELING_UART0_BASE_ADDR, TOP_DARJEELING_UART0_SIZE_BYTES⟩,
  ⟨"gpio", "", TOP_DARJEELING_GPIO_BASE_ADDR, TOP_DARJEELING_GPIO_SIZE_BYTES⟩,
  ⟨"spi_device", "", TOP_DARJEELING_SPI_DEVICE_BASE_ADDR, TOP_DARJEELING_SPI_DEVICE_SIZE_BYTES⟩,
  ⟨"i2c0", "", TOP_DARJEELING_I2C0_BASE_ADDR, TOP_DARJEELING_I2C0_SIZE_BYTES⟩,
  ⟨"rv_timer", "", TOP_DARJEELING_RV_TIMER_BASE_ADDR, TOP_DARJEELING_RV_TIMER_SIZE_BYTES⟩,
  ⟨"otp_ctrl", "core", TOP_DARJEELING_OTP_CTRL_CORE_BASE_ADDR, TOP_DARJEELING_OTP_CTRL_CORE_SIZE_BYTES⟩,
  ⟨"otp_macro", "prim", TOP_DARJEELING_OTP_MACRO_PRIM_BASE_ADDR, TOP_DARJEELING_OTP_MACRO_PRIM_SIZE_BYTES⟩,
  ⟨"lc_ctrl", "regs", TOP_DARJEELING_LC_CTRL_REGS_BASE_ADDR, TOP_DARJEELING_LC_CTRL_REGS_SIZE_BYTES⟩,
  ⟨"alert_handler", "", TOP_DARJEELING_ALERT_HANDLER_BASE_ADDR, TOP_DARJEELING_ALERT_HANDLER_SIZE_BYTES⟩,
  ⟨"spi_host0", "", TOP_DARJEELING_SPI_HOST0_BASE_ADDR, TOP_DARJEELING_SPI_HOST0_SIZE_BYTES⟩,
  ⟨"pwrmgr_aon", "", TOP_DARJEELING_PWRMGR_AON_BASE_ADDR, TOP_DARJEELING_PWRMGR_AON_SIZE_BYTES⟩,
  ⟨"rstmgr_aon", "", TOP_DARJEELING_RSTMGR_AON_BASE_ADDR, TOP_DARJEELING_RSTMGR_AON_SIZE_BYTES⟩,
  ⟨"clkmgr_aon", "", TOP_DARJEELING_CLKMGR_AON_BASE_ADDR, TOP_DARJEELING_CLKMGR_AON_SIZE_BYTES⟩,
  ⟨"pinmux_aon", "", TOP_DARJEELING_PINMUX_AON_BASE_ADDR, TOP_DARJEELING_PINMUX_AON_SIZE_BYTES⟩,
  ⟨"aon_timer_aon", "", TOP_DARJEELING_AON_TIMER_AON_BASE_ADDR, TOP_DARJEELING_AON_TIMER_AON_SIZE_BYTES⟩,
  ⟨"ast", "", TOP_DARJEELING_AST_BASE_ADDR, TOP_DARJEELING_AST_SIZE_BYTES⟩,
  ⟨"soc_proxy", "core", TOP_DARJEELING_SOC_PROXY_CORE_BASE_ADDR, TOP_DARJEELING_SOC_PROXY_CORE_SIZE_BYTES⟩,
  ⟨"soc_proxy", "ctn", TOP_DARJEELING_SOC_PROXY_CTN_BASE_ADDR, TOP_DARJEELING_SOC_PROXY_CTN_SIZE_BYTES⟩,
  ⟨"sram_ctrl_ret_aon", "regs", TOP_DARJEELING_SRAM_CTRL_RET_AON_REGS_BASE_ADDR, TOP_DARJEELING_SRAM_CTRL_RET_AON_REGS_SIZE_BYTES⟩,
  ⟨"sram_ctrl_ret_aon", "ram", TOP_DARJEELING_SRAM_CTRL_RET_AON_RAM_BASE_ADDR, TOP_DARJEELING_SRAM_CTRL_RET_AON_RAM_SIZE_BYTES⟩,
  ⟨"rv_dm", "regs", TOP_DARJEELING_RV_DM_REGS_BASE_ADDR, TOP_DARJEELING_RV_DM_REGS_SIZE_BYTES⟩,
  ⟨"rv_dm", "mem", TOP_DARJEELING_RV_DM_MEM_BASE_ADDR, TOP_DARJEELING_RV_DM_MEM_SIZE_BYTES⟩,
  ⟨"rv_plic", "", TOP_DARJEELING_RV_PLIC_BASE_ADDR, TOP_DARJEELING_RV_PLIC_SIZE_BYTES⟩,
  ⟨"aes", "", TOP_DARJEELING_AES_BASE_ADDR, TOP_DARJEELING_AES_SIZE_BYTES⟩,
  ⟨"hmac", "", TOP_DARJEELING_HMAC_BASE_ADDR, TOP_DARJEELING_HMAC_SIZE_BYTES⟩,
  ⟨"kmac", "", TOP_DARJEELING_KMAC_BASE_ADDR, TOP_DARJEELING_KMAC_SIZE_BYTES⟩,
  ⟨"otbn", "", TOP_DARJEELING_OTBN_BASE_ADDR, TOP_DARJEELING_OTBN_SIZE_BYTES⟩,
  ⟨"keymgr_dpe", "", TOP_DARJEELING_KEYMGR_DPE_BASE_ADDR, TOP_DARJEELING_KEYMGR_DPE_SIZE_BYTES⟩,
  ⟨"csrng", "", TOP_DARJEELING_CSRNG_BASE_ADDR, TOP_DARJEELING_CSRNG_SIZE_BYTES⟩,
  ⟨"entropy_src", "", TOP_DARJEELING_ENTROPY_SRC_BASE_ADDR, TOP_DARJEELING_ENTROPY_SRC_SIZE_BYTES⟩,
  ⟨"edn0", "", TOP_DARJEELING_EDN0_BASE_ADDR, TOP_DARJEELING_EDN0_SIZE_BYTES⟩,
  ⟨"edn1", "", TOP_DARJEELING_EDN1_BASE_ADDR, TOP_DARJEELING_EDN1_SIZE_BYTES⟩,
  ⟨"sram_ctrl_main", "regs", TOP_DARJEELING_SRAM_CTRL_MAIN_REGS_BASE_ADDR, TOP_DARJEELING_SRAM_CTRL_MAIN_REGS_SIZE_BYTES⟩,
  ⟨"sram_ctrl_main", "ram", TOP_DARJEELING_SRAM_CTRL_MAIN_RAM_BASE_ADDR, TOP_DARJEELING_SRAM_CTRL_MAIN_RAM_SIZE_BYTES⟩,
  ⟨"sram_ctrl_mbox", "regs", TOP_DARJEELING_SRAM_CTRL_MBOX_REGS_BASE_ADDR, TOP_DARJEELING_SRAM_CTRL_MBOX_REGS_SIZE_BYTES⟩,
  ⟨"sram_ctrl_mbox", "ram", TOP_DARJEELING_SRAM_CTRL_MBOX_RAM_BASE_ADDR, TOP_DARJEELING_SRAM_CTRL_MBOX_RAM_SIZE_BYTES⟩,
  ⟨"rom_ctrl0", "regs", TOP_DARJEELING_ROM_CTRL0_REGS_BASE_ADDR, TOP_DARJEELING_ROM_CTRL0_REGS_SIZE_BYTES⟩,
  ⟨"rom_ctrl0", "rom", TOP_DARJEELING_ROM_CTRL0_ROM_BASE_ADDR, TOP_DARJEELING_ROM_CTRL0_ROM_SIZE_BYTES⟩,
  ⟨"rom_ctrl1", "regs", TOP_DARJEELING_ROM_CTRL1_REGS_BASE_ADDR, TOP_DARJEELING_ROM_CTRL1_REGS_SIZE_BYTES⟩,
  ⟨"rom_ctrl1", "rom", TOP_DARJEELING_ROM_CTRL1_ROM_BASE_ADDR, TOP_DARJEELING_ROM_CTRL1_ROM_SIZE_BYTES⟩,
  ⟨"dma", "", TOP_DARJEELING_DMA_BASE_ADDR, TOP_DARJEELING_DMA_SIZE_BYTES⟩,
  ⟨"mbx0", "core", TOP_DARJEELING_MBX0_CORE_BASE_ADDR, TOP_DARJEELING_MBX0_CORE_SIZE_BYTES⟩,
  ⟨"mbx1", "core", TOP_DARJEELING_MBX1_CORE_BASE_ADDR, TOP_DARJEELING_MBX1_CORE_SIZE_BYTES⟩,
  ⟨"mbx2", "core", TOP_DARJEELING_MBX2_CORE_BASE_ADDR, TOP_DARJEELING_MBX2_CORE_SIZE_BYTES⟩,
  ⟨"mbx3", "core", TOP_DARJEELING_MBX3_CORE_BASE_ADDR, TOP_DARJEELING_MBX3_CORE_SIZE_BYTES⟩,
  ⟨"mbx4", "core", TOP_DARJEELING_MBX4_CORE_BASE_ADDR, TOP_DARJEELING_MBX4_CORE_SIZE_BYTES⟩,
  ⟨"mbx5", "core", TOP_DARJEELING_MBX5_CORE_BASE_ADDR, TOP_DARJEELING_MBX5_CORE_SIZE_BYTES⟩,
  ⟨"mbx6", "core", TOP_DARJEELING_MBX6_CORE_BASE_ADDR, TOP_DARJEELING_MBX6_CORE_SIZE_BYTES⟩,
  ⟨"mbx_jtag", "core", TOP_DARJEELING_MBX_JTAG_CORE_BASE_ADDR, TOP_DARJEELING_MBX_JTAG_CORE_SIZE_BYTES⟩,
  ⟨"mbx_pcie0", "core", TOP_DARJEELING_MBX_PCIE0_CORE_BASE_ADDR, TOP_DARJEELING_MBX_PCIE0_CORE_SIZE_BYTES⟩,
  ⟨"mbx_pcie1", "core", TOP_DARJEELING_MBX_PCIE1_CORE_BASE_ADDR, TOP_DARJEELING_MBX_PCIE1_CORE_SIZE_BYTES⟩,
  ⟨"soc_dbg_ctrl", "core", TOP_DARJEELING_SOC_DBG_CTRL_CORE_BASE_ADDR, TOP_DARJEELING_SOC_DBG_CTRL_CORE_SIZE_BYTES⟩,
  ⟨"rv_core_ibex", "cfg", TOP_DARJEELING_RV_CORE_IBEX_CFG_BASE_ADDR, TOP_DARJEELING_RV_CORE_IBEX_CFG_SIZE_BYTES⟩]

/-- The memory regions of the header, in declaration order. -/
def memories : List Region := [
  ⟨"ctn", "", TOP_DARJEELING_CTN_BASE_ADDR, TOP_DARJEELING_CTN_SIZE_BYTES⟩,
  ⟨"ram_ret_aon", "", TOP_DARJEELING_RAM_RET_AON_BASE_ADDR, TOP_DARJEELING_RAM_RET_AON_SIZE_BYTES⟩,
  ⟨"ram_main", "", TOP_DARJEELING_RAM_MAIN_BASE_ADDR, TOP_DARJEELING_RAM_MAIN_SIZE_BYTES⟩,
  ⟨"ram_mbox", "", TOP_DARJEELING_RAM_MBOX_BASE_ADDR, TOP_DARJEELING_RAM_MBOX_SIZE_BYTES⟩,
  ⟨"rom0", "", TOP_DARJEELING_ROM0_BASE_ADDR, TOP_DARJEELING_ROM0_SIZE_BYTES⟩,
  ⟨"rom1", "", TOP_DARJEELING_ROM1_BASE_ADDR, TOP_DARJEELING_ROM1_SIZE_BYTES⟩]

/-- The MMIO region (`TOP_DARJEELING_MMIO_BASE_ADDR`, `TOP_DARJEELING_MMIO_SIZE_BYTES`). -/
def mmio : Region :=
  ⟨"mmio", "", TOP_DARJEELING_MMIO_BASE_ADDR, TOP_DARJEELING_MMIO_SIZE_BYTES⟩


/-! ## Enumerations -/

/-- One enumerator of a C enumeration: its identifier, its value and the text
of its trailing doc comment. -/
structure Enumerator where
  name : String
  value : Nat
  doc : String
deriving DecidableEq, Repr

/-- A C enumeration of the header.  `tag` is the identifier prefix shared by
its enumerators, `members` are the enumerators in declaration order without the
closing `Last` alias, and `last` is that alias (marked `\internal` in the
header). -/
structure CEnum where
  tag : String
  members : List Enumerator
  last : Enumerator

def kTopDarjeelingPlicPeripheralUnknown : Nat := 0
def kTopDarjeelingPlicPeripheralUart0 : Nat := 1
def kTopDarjeelingPlicPeripheralLast : Nat := 32

/-- The enumeration `top_darjeeling_plic_peripheral_t`. -/
def top_darjeeling_plic_peripheral : CEnum where
  tag := "kTopDarjeelingPlicPeripheral"
  members := [
    Enumerator.mk "kTopDarjeelingPlicPeripheralUnknown" kTopDarjeelingPlicPeripheralUnknown "Unknown Peripheral",
    Enumerator.mk "kTopDarjeelingPlicPeripheralUart0" kTopDarjeelingPlicPeripheralUart0 "uart0",
    Enumerator.mk "kTopDarjeelingPlicPeripheralGpio" 2 "gpio",
    Enumerator.mk "kTopDarjeelingPlicPeripheralSpiDevice" 3 "spi_device",
    Enumerator.mk "kTopDarjeelingPlicPeripheralI2c0" 4 "i2c0",
    Enumerator.mk "kTopDarjeelingPlicPeripheralRvTimer" 5 "rv_timer",
    Enumerator.mk "kTopDarjeelingPlicPeripheralOtpCtrl" 6 "otp_ctrl",
    Enumerator.mk "kTopDarjeelingPlicPeripheralAlertHandler" 7 "alert_handler",
    Enumerator.mk "kTopDarjeelingPlicPeripheralSpiHost0" 8 "spi_host0",
    Enumerator.mk "kTopDarjeelingPlicPeripheralPwrmgrAon" 9 "pwrmgr_aon",
    Enumerator.mk "kTopDarjeelingPlicPeripheralAonTimerAon" 10 "aon_timer_aon",
    Enumerator.mk "kTopDarjeelingPlicPeripheralSocProxy" 11 "soc_proxy",
    Enumerator.mk "kTopDarjeelingPlicPeripheralHmac" 12 "hmac",
    Enumerator.mk "kTopDarjeelingPlicPeripheralKmac" 13 "kmac",
    Enumerator.mk "kTopDarjeelingPlicPeripheralOtbn" 14 "otbn",
    Enumerator.mk "kTopDarjeelingPlicPeripheralKeymgrDpe" 15 "keymgr_dpe",
    Enumerator.mk "kTopDarjeelingPlicPeripheralCsrng" 16 "csrng",
    Enumerator.mk "kTopDarjeelingPlicPeripheralEntropySrc" 17 "entropy_src",
    Enumerator.mk "kTopDarjeelingPlicPeripheralEdn0" 18 "edn0",
    Enumerator.mk "kTopDarjeelingPlicPeripheralEdn1" 19 "edn1",
    Enumerator.mk "kTopDarjeelingPlicPeripheralDma" 20 "dma",
    Enumerator.mk "kTopDarjeelingPlicPeripheralMbx0" 21 "mbx0",
    Enumerator.mk "kTopDarjeelingPlicPeripheralMbx1" 22 "mbx1",
    Enumerator.mk "kTopDarjeelingPlicPeripheralMbx2" 23 "mbx2",
    Enumerator.mk "kTopDarjeelingPlicPeripheralMbx3" 24 "mbx3",
    Enumerator.mk "kTopDarjeelingPlicPeripheralMbx4" 25 "mbx4",
    Enumerator.mk "kTopDarjeelingPlicPeripheralMbx5" 26 "mbx5",
    Enumerator.mk "kTopDarjeelingPlicPeripheralMbx6" 27 "mbx6",
    Enumerator.mk "kTopDarjeelingPlicPeripheralMbxJtag" 28 "mbx_jtag",
    Enumerator.mk "kTopDarjeelingPlicPeripheralMbxPcie0" 29 "mbx_pcie0",
    Enumerator.mk "kTopDarjeelingPlicPeripheralMbxPcie1" 30 "mbx_pcie1",
    Enumerator.mk "kTopDarjeelingPlicPeripheralRaclCtrl" 31 "racl_ctrl",
    Enumerator.mk "kTopDarjeelingPlicPeripheralAcRangeCheck" 32 "ac_range_check"]
  last := ⟨"kTopDarjeelingPlicPeripheralLast", kTopDarjeelingPlicPeripheralLast, "\\internal Final PLIC peripheral"⟩

def kTopDarjeelingPlicIrqIdNone : Nat := 0
def kTopDarjeelingPlicIrqIdUart0TxWatermark : Nat := 1
def kTopDarjeelingPlicIrqIdLast : Nat := 163

/-- The enumeration `top_darjeeling_plic_irq_id_t`. -/
def top_darjeeling_plic_irq_id : CEnum where
  tag := "kTopDarjeelingPlicIrqId"
  members := [
    Enumerator.mk "kTopDarjeelingPlicIrqIdNone" kTopDarjeelingPlicIrqIdNone "No Interrupt",
    Enumerator.mk "kTopDarjeelingPlicIrqIdUart0TxWatermark" kTopDarjeelingPlicIrqIdUart0TxWatermark "uart0_tx_watermark",
    Enumerator.mk "kTopDarjeelingPlicIrqIdUart0RxWatermark" 2 "uart0_rx_watermark",
    Enumerator.mk "kTopDarjeelingPlicIrqIdUart0TxDone" 3 "uart0_tx_done",
    Enumerator.mk "kTopDarjeelingPlicIrqIdUart0RxOverflow" 4 "uart0_rx_overflow",
    Enumerator.mk "kTopDarjeelingPlicIrqIdUart0RxFrameErr" 5 "uart0_rx_frame_err",
    Enumerator.mk "kTopDarjeelingPlicIrqIdUart0RxBreakErr" 6 "uart0_rx_break_err",
    Enumerator.mk "kTopDarjeelingPlicIrqIdUart0RxTimeout" 7 "uart0_rx_timeout",
    Enumerator.mk "kTopDarjeelingPlicIrqIdUart0RxParityErr" 8 "uart0_rx_parity_err",
    Enumerator.mk "kTopDarjeelingPlicIrqIdUart0TxEmpty" 9 "uart0_tx_empty",
    Enumerator.mk "kTopDarjeelingPlicIrqIdGpioGpio0" 10 "gpio_gpio 0",
    Enumerator.mk "kTopDarjeelingPlicIrqIdGpioGpio1" 11 "gpio_gpio 1",
    Enumerator.mk "kTopDarjeelingPlicIrqIdGpioGpio2" 12 "gpio_gpio 2",
    Enumerator.mk "kTopDarjeelingPlicIrqIdGpioGpio3" 13 "gpio_gpio 3",
    Enumerator.mk "kTopDarjeelingPlicIrqIdGpioGpio4" 14 "gpio_gpio 4",
    Enumerator.mk "kTopDarjeelingPlicIrqIdGpioGpio5" 15 "gpio_gpio 5",
    Enumerator.mk "kTopDarjeelingPlicIrqIdGpioGpio6" 16 "gpio_gpio 6",
    Enumerator.mk "kTopDarjeelingPlicIrqIdGpioGpio7" 17 "gpio_gpio 7",
    Enumerator.mk "kTopDarjeelingPlicIrqIdGpioGpio8" 18 "gpio_gpio 8",
    Enumerator.mk "kTopDarjeelingPlicIrqIdGpioGpio9" 19 "gpio_gpio 9",
    Enumerator.mk "kTopDarjeelingPlicIrqIdGpioGpio10" 20 "gpio_gpio 10",
    Enumerator.mk "kTopDarjeelingPlicIrqIdGpioGpio11" 21 "gpio_gpio 11",
    Enumerator.mk "kTopDarjeelingPlicIrqIdGpioGpio12" 22 "gpio_gpio 12",
    Enumerator.mk "kTopDarjeelingPlicIrqIdGpioGpio13" 23 "gpio_gpio 13",
    Enumerator.mk "kTopDarjeelingPlicIrqIdGpioGpio14" 24 "gpio_gpio 14",
    Enumerator.mk "kTopDarjeelingPlicIrqIdGpioGpio15" 25 "gpio_gpio 15",
    Enumerator.mk "kTopDarjeelingPlicIrqIdGpioGpio16" 26 "gpio_gpio 16",
    Enumerator.mk "kTopDarjeelingPlicIrqIdGpioGpio17" 27 "gpio_gpio 17",
    Enumerator.mk "kTopDarjeelingPlicIrqIdGpioGpio18" 28 "gpio_gpio 18",
    Enumerator.mk "kTopDarjeelingPlicIrqIdGpioGpio19" 29 "gpio_gpio 19",
    Enumerator.mk "kTopDarjeelingPlicIrqIdGpioGpio20" 30 "gpio_gpio 20",
    Enumerator.mk "kTopDarjeelingPlicIrqIdGpioGpio21" 31 "gpio_gpio 21",
    Enumerator.mk "kTopDarjeelingPlicIrqIdGpioGpio22" 32 "gpio_gpio 22",
    Enumerator.mk "kTopDarjeelingPlicIrqIdGpioGpio23" 33 "gpio_gpio 23",
    Enumerator.mk "kTopDarjeelingPlicIrqIdGpioGpio24" 34 "gpio_gpio 24",
    Enumerator.mk "kTopDarjeelingPlicIrqIdGpioGpio25" 35 "gpio_gpio 25",
    Enumerator.mk "kTopDarjeelingPlicIrqIdGpioGpio26" 36 "gpio_gpio 26",
    Enumerator.mk "kTopDarjeelingPlicIrqIdGpioGpio27" 37 "gpio_gpio 27",
    Enumerator.mk "kTopDarjeelingPlicIrqIdGpioGpio28" 38 "gpio_gpio 28",
    Enumerator.mk "kTopDarjeelingPlicIrqIdGpioGpio29" 39 "gpio_gpio 29",
    Enumerator.mk "kTopDarjeelingPlicIrqIdGpioGpio30" 40 "gpio_gpio 30",
    Enumerator.mk "kTopDarjeelingPlicIrqIdGpioGpio31" 41 "gpio_gpio 31",
    Enumerator.mk "kTopDarjeelingPlicIrqIdSpiDeviceUploadCmdfifoNotEmpty" 42 "spi_device_upload_cmdfifo_not_empty",
    Enumerator.mk "kTopDarjeelingPlicIrqIdSpiDeviceUploadPayloadNotEmpty" 43 "spi_device_upload_payload_not_empty",
    Enumerator.mk "kTopDarjeelingPlicIrqIdSpiDeviceUploadPayloadOverflow" 44 "spi_device_upload_payload_overflow",
    Enumerator.mk "kTopDarjeelingPlicIrqIdSpiDeviceReadbufWatermark" 45 "spi_device_readbuf_watermark",
    Enumerator.mk "kTopDarjeelingPlicIrqIdSpiDeviceReadbufFlip" 46 "spi_device_readbuf_flip",
    Enumerator.mk "kTopDarjeelingPlicIrqIdSpiDeviceTpmHeaderNotEmpty" 47 "spi_device_tpm_header_not_empty",
    Enumerator.mk "kTopDarjeelingPlicIrqIdSpiDeviceTpmRdfifoCmdEnd" 48 "spi_device_tpm_rdfifo_cmd_end",
    Enumerator.mk "kTopDarjeelingPlicIrqIdSpiDeviceTpmRdfifoDrop" 49 "spi_device_tpm_rdfifo_drop",
    Enumerator.mk "kTopDarjeelingPlicIrqIdI2c0FmtThreshold" 50 "i2c0_fmt_threshold",
    Enumerator.mk "kTopDarjeelingPlicIrqIdI2c0RxThreshold" 51 "i2c0_rx_threshold",
    Enumerator.mk "kTopDarjeelingPlicIrqIdI2c0AcqThreshold" 52 "i2c0_acq_threshold",
    Enumerator.mk "kTopDarjeelingPlicIrqIdI2c0RxOverflow" 53 "i2c0_rx_overflow",
    Enumerator.mk "kTopDarjeelingPlicIrqIdI2c0ControllerHalt" 54 "i2c0_controller_halt",
    Enumerator.mk "kTopDarjeelingPlicIrqIdI2c0SclInterference" 55 "i2c0_scl_interference",
    Enumerator.mk "kTopDarjeelingPlicIrqIdI2c0SdaInterference" 56 "i2c0_sda_interference",
    Enumerator.mk "kTopDarjeelingPlicIrqIdI2c0StretchTimeout" 57 "i2c0_stretch_timeout",
    Enumerator.mk "kTopDarjeelingPlicIrqIdI2c0SdaUnstable" 58 "i2c0_sda_unstable",
    Enumerator.mk "kTopDarjeelingPlicIrqIdI2c0CmdComplete" 59 "i2c0_cmd_complete",
    Enumerator.mk "kTopDarjeelingPlicIrqIdI2c0TxStretch" 60 "i2c0_tx_stretch",
    Enumerator.mk "kTopDarjeelingPlicIrqIdI2c0TxThreshold" 61 "i2c0_tx_threshold",
    Enumerator.mk "kTopDarjeelingPlicIrqIdI2c0AcqStretch" 62 "i2c0_acq_stretch",
    Enumerator.mk "kTopDarjeelingPlicIrqIdI2c0UnexpStop" 63 "i2c0_unexp_stop",
    Enumerator.mk "kTopDarjeelingPlicIrqIdI2c0HostTimeout" 64 "i2c0_host_timeout",
    Enumerator.mk "kTopDarjeelingPlicIrqIdRvTimerTimerExpiredHart0Timer0" 65 "rv_timer_timer_expired_hart0_timer0",
    Enumerator.mk "kTopDarjeelingPlicIrqIdOtpCtrlOtpOperationDone" 66 "otp_ctrl_otp_operation_done",
    Enumerator.mk "kTopDarjeelingPlicIrqIdOtpCtrlOtpError" 67 "otp_ctrl_otp_error",
    Enumerator.mk "kTopDarjeelingPlicIrqIdAlertHandlerClassa" 68 "alert_handler_classa",
    Enumerator.mk "kTopDarjeelingPlicIrqIdAlertHandlerClassb" 69 "alert_handler_classb",
    Enumerator.mk "kTopDarjeelingPlicIrqIdAlertHandlerClassc" 70 "alert_handler_classc",
    Enumerator.mk "kTopDarjeelingPlicIrqIdAlertHandlerClassd" 71 "alert_handler_classd",
    Enumerator.mk "kTopDarjeelingPlicIrqIdSpiHost0Error" 72 "spi_host0_error",
    Enumerator.mk "kTopDarjeelingPlicIrqIdSpiHost0SpiEvent" 73 "spi_host0_spi_event",
    Enumerator.mk "kTopDarjeelingPlicIrqIdPwrmgrAonWakeup" 74 "pwrmgr_aon_wakeup",
    Enumerator.mk "kTopDarjeelingPlicIrqIdAonTimerAonWkupTimerExpired" 75 "aon_timer_aon_wkup_timer_expired",
    Enumerator.mk "kTopDarjeelingPlicIrqIdAonTimerAonWdogTimerBark" 76 "aon_timer_aon_wdog_timer_bark",
    Enumerator.mk "kTopDarjeelingPlicIrqIdSocProxyExternal0" 77 "soc_proxy_external 0",
    Enumerator.mk "kTopDarjeelingPlicIrqIdSocProxyExternal1" 78 "soc_proxy_external 1",
    Enumerator.mk "kTopDarjeelingPlicIrqIdSocProxyExternal2" 79 "soc_proxy_external 2",
    Enumerator.mk "kTopDarjeelingPlicIrqIdSocProxyExternal3" 80 "soc_proxy_external 3",
    Enumerator.mk "kTopDarjeelingPlicIrqIdSocProxyExternal4" 81 "soc_proxy_external 4",
    Enumerator.mk "kTopDarjeelingPlicIrqIdSocProxyExternal5" 82 "soc_proxy_external 5",
    Enumerator.mk "kTopDarjeelingPlicIrqIdSocProxyExternal6" 83 "soc_proxy_external 6",
    Enumerator.mk "kTopDarjeelingPlicIrqIdSocProxyExternal7" 84 "soc_proxy_external 7",
    Enumerator.mk "kTopDarjeelingPlicIrqIdSocProxyExternal8" 85 "soc_proxy_external 8",
    Enumerator.mk "kTopDarjeelingPlicIrqIdSocProxyExternal9" 86 "soc_proxy_external 9",
    Enumerator.mk "kTopDarjeelingPlicIrqIdSocProxyExternal10" 87 "soc_proxy_external 10",
    Enumerator.mk "kTopDarjeelingPlicIrqIdSocProxyExternal11" 88 "soc_proxy_external 11",
    Enumerator.mk "kTopDarjeelingPlicIrqIdSocProxyExternal12" 89 "soc_proxy_external 12",
    Enumerator.mk "kTopDarjeelingPlicIrqIdSocProxyExternal13" 90 "soc_proxy_external 13",
    Enumerator.mk "kTopDarjeelingPlicIrqIdSocProxyExternal14" 91 "soc_proxy_external 14",
    Enumerator.mk "kTopDarjeelingPlicIrqIdSocProxyExternal15" 92 "soc_proxy_external 15",
    Enumerator.mk "kTopDarjeelingPlicIrqIdSocProxyExternal16" 93 "soc_proxy_external 16",
    Enumerator.mk "kTopDarjeelingPlicIrqIdSocProxyExternal17" 94 "soc_proxy_external 17",
    Enumerator.mk "kTopDarjeelingPlicIrqIdSocProxyExternal18" 95 "soc_proxy_external 18",
    Enumerator.mk "kTopDarjeelingPlicIrqIdSocProxyExternal19" 96 "soc_proxy_external 19",
    Enumerator.mk "kTopDarjeelingPlicIrqIdSocProxyExternal20" 97 "soc_proxy_external 20",
    Enumerator.mk "kTopDarjeelingPlicIrqIdSocProxyExternal21" 98 "soc_proxy_external 21",
    Enumerator.mk "kTopDarjeelingPlicIrqIdSocProxyExternal22" 99 "soc_proxy_external 22",
    Enumerator.mk "kTopDarjeelingPlicIrqIdSocProxyExternal23" 100 "soc_proxy_external 23",
    Enumerator.mk "kTopDarjeelingPlicIrqIdSocProxyExternal24" 101 "soc_proxy_external 24",
    Enumerator.mk "kTopDarjeelingPlicIrqIdSocProxyExternal25" 102 "soc_proxy_external 25",
    Enumerator.mk "kTopDarjeelingPlicIrqIdSocProxyExternal26" 103 "soc_proxy_external 26",
    Enumerator.mk "kTopDarjeelingPlicIrqIdSocProxyExternal27" 104 "soc_proxy_external 27",
    Enumerator.mk "kTopDarjeelingPlicIrqIdSocProxyExternal28" 105 "soc_proxy_external 28",
    Enumerator.mk "kTopDarjeelingPlicIrqIdSocProxyExternal29" 106 "soc_proxy_external 29",
    Enumerator.mk "kTopDarjeelingPlicIrqIdSocProxyExternal30" 107 "soc_proxy_external 30",
    Enumerator.mk "kTopDarjeelingPlicIrqIdSocProxyExternal31" 108 "soc_proxy_external 31",
    Enumerator.mk "kTopDarjeelingPlicIrqIdHmacHmacDone" 109 "hmac_hmac_done",
    Enumerator.mk "kTopDarjeelingPlicIrqIdHmacFifoEmpty" 110 "hmac_fifo_empty",
    Enumerator.mk "kTopDarjeelingPlicIrqIdHmacHmacErr" 111 "hmac_hmac_err",
    Enumerator.mk "kTopDarjeelingPlicIrqIdKmacKmacDone" 112 "kmac_kmac_done",
    Enumerator.mk "kTopDarjeelingPlicIrqIdKmacFifoEmpty" 113 "kmac_fifo_empty",
    Enumerator.mk "kTopDarjeelingPlicIrqIdKmacKmacErr" 114 "kmac_kmac_err",
    Enumerator.mk "kTopDarjeelingPlicIrqIdOtbnDone" 115 "otbn_done",
    Enumerator.mk "kTopDarjeelingPlicIrqIdKeymgrDpeOpDone" 116 "keymgr_dpe_op_done",
    Enumerator.mk "kTopDarjeelingPlicIrqIdCsrngCsCmdReqDone" 117 "csrng_cs_cmd_req_done",
    Enumerator.mk "kTopDarjeelingPlicIrqIdCsrngCsEntropyReq" 118 "csrng_cs_entropy_req",
    Enumerator.mk "kTopDarjeelingPlicIrqIdCsrngCsHwInstExc" 119 "csrng_cs_hw_inst_exc",
    Enumerator.mk "kTopDarjeelingPlicIrqIdCsrngCsFatalErr" 120 "csrng_cs_fatal_err",
    Enumerator.mk "kTopDarjeelingPlicIrqIdEntropySrcEsEntropyValid" 121 "entropy_src_es_entropy_valid",
    Enumerator.mk "kTopDarjeelingPlicIrqIdEntropySrcEsHealthTestFailed" 122 "entropy_src_es_health_test_failed",
    Enumerator.mk "kTopDarjeelingPlicIrqIdEntropySrcEsObserveFifoReady" 123 "entropy_src_es_observe_fifo_ready",
    Enumerator.mk "kTopDarjeelingPlicIrqIdEntropySrcEsFatalErr" 124 "entropy_src_es_fatal_err",
    Enumerator.mk "kTopDarjeelingPlicIrqIdEdn0EdnCmdReqDone" 125 "edn0_edn_cmd_req_done",
    Enumerator.mk "kTopDarjeelingPlicIrqIdEdn0EdnFatalErr" 126 "edn0_edn_fatal_err",
    Enumerator.mk "kTopDarjeelingPlicIrqIdEdn1EdnCmdReqDone" 127 "edn1_edn_cmd_req_done",
    Enumerator.mk "kTopDarjeelingPlicIrqIdEdn1EdnFatalErr" 128 "edn1_edn_fatal_err",
    Enumerator.mk "kTopDarjeelingPlicIrqIdDmaDmaDone" 129 "dma_dma_done",
    Enumerator.mk "kTopDarjeelingPlicIrqIdDmaDmaChunkDone" 130 "dma_dma_chunk_done",
    Enumerator.mk "kTopDarjeelingPlicIrqIdDmaDmaError" 131 "dma_dma_error",
    Enumerator.mk "kTopDarjeelingPlicIrqIdMbx0MbxReady" 132 "mbx0_mbx_ready",
    Enumerator.mk "kTopDarjeelingPlicIrqIdMbx0MbxAbort" 133 "mbx0_mbx_abort",
    Enumerator.mk "kTopDarjeelingPlicIrqIdMbx0MbxError" 134 "mbx0_mbx_error",
    Enumerator.mk "kTopDarjeelingPlicIrqIdMbx1MbxReady" 135 "mbx1_mbx_ready",
    Enumerator.mk "kTopDarjeelingPlicIrqIdMbx1MbxAbort" 136 "mbx1_mbx_abort",
    Enumerator.mk "kTopDarjeelingPlicIrqIdMbx1MbxError" 137 "mbx1_mbx_error",
    Enumerator.mk "kTopDarjeelingPlicIrqIdMbx2MbxReady" 138 "mbx2_mbx_ready",
    Enumerator.mk "kTopDarjeelingPlicIrqIdMbx2MbxAbort" 139 "mbx2_mbx_abort",
    Enumerator.mk "kTopDarjeelingPlicIrqIdMbx2MbxError" 140 "mbx2_mbx_error",
    Enumerator.mk "kTopDarjeelingPlicIrqIdMbx3MbxReady" 141 "mbx3_mbx_ready",
    Enumerator.mk "kTopDarjeelingPlicIrqIdMbx3MbxAbort" 142 "mbx3_mbx_abort",
    Enumerator.mk "kTopDarjeelingPlicIrqIdMbx3MbxError" 143 "mbx3_mbx_error",
    Enumerator.mk "kTopDarjeelingPlicIrqIdMbx4MbxReady" 144 "mbx4_mbx_ready",
    Enumerator.mk "kTopDarjeelingPlicIrqIdMbx4MbxAbort" 145 "mbx4_mbx_abort",
    Enumerator.mk "kTopDarjeelingPlicIrqIdMbx4MbxError" 146 "mbx4_mbx_error",
    Enumerator.mk "kTopDarjeelingPlicIrqIdMbx5MbxReady" 147 "mbx5_mbx_ready",
    Enumerator.mk "kTopDarjeelingPlicIrqIdMbx5MbxAbort" 148 "mbx5_mbx_abort",
    Enumerator.mk "kTopDarjeelingPlicIrqIdMbx5MbxError" 149 "mbx5_mbx_error",
    Enumerator.mk "kTopDarjeelingPlicIrqIdMbx6MbxReady" 150 "mbx6_mbx_ready",
    Enumerator.mk "kTopDarjeelingPlicIrqIdMbx6MbxAbort" 151 "mbx6_mbx_abort",
    Enumerator.mk "kTopDarjeelingPlicIrqIdMbx6MbxError" 152 "mbx6_mbx_error",
    Enumerator.mk "kTopDarjeelingPlicIrqIdMbxJtagMbxReady" 153 "mbx_jtag_mbx_ready",
    Enumerator.mk "kTopDarjeelingPlicIrqIdMbxJtagMbxAbort" 154 "mbx_jtag_mbx_abort",
    Enumerator.mk "kTopDarjeelingPlicIrqIdMbxJtagMbxError" 155 "mbx_jtag_mbx_error",
    Enumerator.mk "kTopDarjeelingPlicIrqIdMbxPcie0MbxReady" 156 "mbx_pcie0_mbx_ready",
    Enumerator.mk "kTopDarjeelingPlicIrqIdMbxPcie0MbxAbort" 157 "mbx_pcie0_mbx_abort",
    Enumerator.mk "kTopDarjeelingPlicIrqIdMbxPcie0MbxError" 158 "mbx_pcie0_mbx_error",
    Enumerator.mk "kTopDarjeelingPlicIrqIdMbxPcie1MbxReady" 159 "mbx_pcie1_mbx_ready",
    Enumerator.mk "kTopDarjeelingPlicIrqIdMbxPcie1MbxAbort" 160 "mbx_pcie1_mbx_abort",
    Enumerator.mk "kTopDarjeelingPlicIrqIdMbxPcie1MbxError" 161 "mbx_pcie1_mbx_error",
    Enumerator.mk "kTopDarjeelingPlicIrqIdRaclCtrlRaclError" 162 "racl_ctrl_racl_error",
    Enumerator.mk "kTopDarjeelingPlicIrqIdAcRangeCheckDenyCntReached" 163 "ac_range_check_deny_cnt_reached"]
  last := ⟨"kTopDarjeelingPlicIrqIdLast", kTopDarjeelingPlicIrqIdLast, "\\internal The Last Valid Interrupt ID."⟩

def kTopDarjeelingPlicTargetLast : Nat := 0

/-- The enumeration `top_darjeeling_plic_target_t`. -/
def top_darjeeling_plic_target : CEnum where
  tag := "kTopDarjeelingPlicTarget"
  members := [
    Enumerator.mk "kTopDarjeelingPlicTargetIbex0" 0 "Ibex Core 0"]
  last := ⟨"kTopDarjeelingPlicTargetLast", kTopDarjeelingPlicTargetLast, "\\internal Final PLIC target"⟩

def kTopDarjeelingAlertPeripheralExternal : Nat := 0
def kTopDarjeelingAlertPeripheralUart0 : Nat := 1
def kTopDarjeelingAlertPeripheralLast : Nat := 45

/-- The enumeration `top_darjeeling_alert_peripheral_t`. -/
def top_darjeeling_alert_peripheral : CEnum where
  tag := "kTopDarjeelingAlertPeripheral"
  members := [
    Enumerator.mk "kTopDarjeelingAlertPeripheralExternal" kTopDarjeelingAlertPeripheralExternal "External Peripheral",
    Enumerator.mk "kTopDarjeelingAlertPeripheralUart0" kTopDarjeelingAlertPeripheralUart0 "uart0",
    Enumerator.mk "kTopDarjeelingAlertPeripheralGpio" 2 "gpio",
    Enumerator.mk "kTopDarjeelingAlertPeripheralSpiDevice" 3 "spi_device",
    Enumerator.mk "kTopDarjeelingAlertPeripheralI2c0" 4 "i2c0",
    Enumerator.mk "kTopDarjeelingAlertPeripheralRvTimer" 5 "rv_timer",
    Enumerator.mk "kTopDarjeelingAlertPeripheralOtpCtrl" 6 "otp_ctrl",
    Enumerator.mk "kTopDarjeelingAlertPeripheralLcCtrl" 7 "lc_ctrl",
    Enumerator.mk "kTopDarjeelingAlertPeripheralSpiHost0" 8 "spi_host0",
    Enumerator.mk "kTopDarjeelingAlertPeripheralPwrmgrAon" 9 "pwrmgr_aon",
    Enumerator.mk "kTopDarjeelingAlertPeripheralRstmgrAon" 10 "rstmgr_aon",
    Enumerator.mk "kTopDarjeelingAlertPeripheralClkmgrAon" 11 "clkmgr_aon",
    Enumerator.mk "kTopDarjeelingAlertPeripheralPinmuxAon" 12 "pinmux_aon",
    Enumerator.mk "kTopDarjeelingAlertPeripheralAonTimerAon" 13 "aon_timer_aon",
    Enumerator.mk "kTopDarjeelingAlertPeripheralSocProxy" 14 "soc_proxy",
    Enumerator.mk "kTopDarjeelingAlertPeripheralSramCtrlRetAon" 15 "sram_ctrl_ret_aon",
    Enumerator.mk "kTopDarjeelingAlertPeripheralRvDm" 16 "rv_dm",
    Enumerator.mk "kTopDarjeelingAlertPeripheralRvPlic" 17 "rv_plic",
    Enumerator.mk "kTopDarjeelingAlertPeripheralAes" 18 "aes",
    Enumerator.mk "kTopDarjeelingAlertPeripheralHmac" 19 "hmac",
    Enumerator.mk "kTopDarjeelingAlertPeripheralKmac" 20 "kmac",
    Enumerator.mk "kTopDarjeelingAlertPeripheralOtbn" 21 "otbn",
    Enumerator.mk "kTopDarjeelingAlertPeripheralKeymgrDpe" 22 "keymgr_dpe",
    Enumerator.mk "kTopDarjeelingAlertPeripheralCsrng" 23 "csrng",
    Enumerator.mk "kTopDarjeelingAlertPeripheralEntropySrc" 24 "entropy_src",
    Enumerator.mk "kTopDarjeelingAlertPeripheralEdn0" 25 "edn0",
    Enumerator.mk "kTopDarjeelingAlertPeripheralEdn1" 26 "edn1",
    Enumerator.mk "kTopDarjeelingAlertPeripheralSramCtrlMain" 27 "sram_ctrl_main",
    Enumerator.mk "kTopDarjeelingAlertPeripheralSramCtrlMbox" 28 "sram_ctrl_mbox",
    Enumerator.mk "kTopDarjeelingAlertPeripheralRomCtrl0" 29 "rom_ctrl0",
    Enumerator.mk "kTopDarjeelingAlertPeripheralRomCtrl1" 30 "rom_ctrl1",
    Enumerator.mk "kTopDarjeelingAlertPeripheralDma" 31 "dma",
    Enumerator.mk "kTopDarjeelingAlertPeripheralMbx0" 32 "mbx0",
    Enumerator.mk "kTopDarjeelingAlertPeripheralMbx1" 33 "mbx1",
    Enumerator.mk "kTopDarjeelingAlertPeripheralMbx2" 34 "mbx2",
    Enumerator.mk "kTopDarjeelingAlertPeripheralMbx3" 35 "mbx3",
    Enumerator.mk "kTopDarjeelingAlertPeripheralMbx4" 36 "mbx4",
    Enumerator.mk "kTopDarjeelingAlertPeripheralMbx5" 37 "mbx5",
    Enumerator.mk "kTopDarjeelingAlertPeripheralMbx6" 38 "mbx6",
    Enumerator.mk "kTopDarjeelingAlertPeripheralMbxJtag" 39 "mbx_jtag",
    Enumerator.mk "kTopDarjeelingAlertPeripheralMbxPcie0" 40 "mbx_pcie0",
    Enumerator.mk "kTopDarjeelingAlertPeripheralMbxPcie1" 41 "mbx_pcie1",
    Enumerator.mk "kTopDarjeelingAlertPeripheralSocDbgCtrl" 42 "soc_dbg_ctrl",
    Enumerator.mk "kTopDarjeelingAlertPeripheralRaclCtrl" 43 "racl_ctrl",
    Enumerator.mk "kTopDarjeelingAlertPeripheralAcRangeCheck" 44 "ac_range_check",
    Enumerator.mk "kTopDarjeelingAlertPeripheralRvCoreIbex" 45 "rv_core_ibex"]
  last := ⟨"kTopDarjeelingAlertPeripheralLast", kTopDarjeelingAlertPeripheralLast, "\\internal Final Alert peripheral"⟩

def kTopDarjeelingAlertIdUart0FatalFault : Nat := 0
def kTopDarjeelingAlertIdLast : Nat := 104

/-- The enumeration `top_darjeeling_alert_id_t`. -/
def top_darjeeling_alert_id : CEnum where
  tag := "kTopDarjeelingAlertId"
  members := [
    Enumerator.mk "kTopDarjeelingAlertIdUart0FatalFault" kTopDarjeelingAlertIdUart0FatalFault "uart0_fatal_fault",
    Enumerator.mk "kTopDarjeelingAlertIdGpioFatalFault" 1 "gpio_fatal_fault",
    Enumerator.mk "kTopDarjeelingAlertIdSpiDeviceFatalFault" 2 "spi_device_fatal_fault",
    Enumerator.mk "kTopDarjeelingAlertIdI2c0FatalFault" 3 "i2c0_fatal_fault",
    Enumerator.mk "kTopDarjeelingAlertIdRvTimerFatalFault" 4 "rv_timer_fatal_fault",
    Enumerator.mk "kTopDarjeelingAlertIdOtpCtrlFatalMacroError" 5 "otp_ctrl_fatal_macro_error",
    Enumerator.mk "kTopDarjeelingAlertIdOtpCtrlFatalCheckError" 6 "otp_ctrl_fatal_check_error",
    Enumerator.mk "kTopDarjeelingAlertIdOtpCtrlFatalBusIntegError" 7 "otp_ctrl_fatal_bus_integ_error",
    Enumerator.mk "kTopDarjeelingAlertIdOtpCtrlFatalPrimOtpAlert" 8 "otp_ctrl_fatal_prim_otp_alert",
    Enumerator.mk "kTopDarjeelingAlertIdOtpCtrlRecovPrimOtpAlert" 9 "otp_ctrl_recov_prim_otp_alert",
    Enumerator.mk "kTopDarjeelingAlertIdLcCtrlFatalProgError" 10 "lc_ctrl_fatal_prog_error",
    Enumerator.mk "kTopDarjeelingAlertIdLcCtrlFatalStateError" 11 "lc_ctrl_fatal_state_error",
    Enumerator.mk "kTopDarjeelingAlertIdLcCtrlFatalBusIntegError" 12 "lc_ctrl_fatal_bus_integ_error",
    Enumerator.mk "kTopDarjeelingAlertIdSpiHost0FatalFault" 13 "spi_host0_fatal_fault",
    Enumerator.mk "kTopDarjeelingAlertIdPwrmgrAonFatalFault" 14 "pwrmgr_aon_fatal_fault",
    Enumerator.mk "kTopDarjeelingAlertIdRstmgrAonFatalFault" 15 "rstmgr_aon_fatal_fault",
    Enumerator.mk "kTopDarjeelingAlertIdRstmgrAonFatalCnstyFault" 16 "rstmgr_aon_fatal_cnsty_fault",
    Enumerator.mk "kTopDarjeelingAlertIdClkmgrAonRecovFault" 17 "clkmgr_aon_recov_fault",
    Enumerator.mk "kTopDarjeelingAlertIdClkmgrAonFatalFault" 18 "clkmgr_aon_fatal_fault",
    Enumerator.mk "kTopDarjeelingAlertIdPinmuxAonFatalFault" 19 "pinmux_aon_fatal_fault",
    Enumerator.mk "kTopDarjeelingAlertIdAonTimerAonFatalFault" 20 "aon_timer_aon_fatal_fault",
    Enumerator.mk "kTopDarjeelingAlertIdSocProxyFatalAlertIntg" 21 "soc_proxy_fatal_alert_intg",
    Enumerator.mk "kTopDarjeelingAlertIdSocProxyFatalAlertExternal0" 22 "soc_proxy_fatal_alert_external_0",
    Enumerator.mk "kTopDarjeelingAlertIdSocProxyFatalAlertExternal1" 23 "soc_proxy_fatal_alert_external_1",
    Enumerator.mk "kTopDarjeelingAlertIdSocProxyFatalAlertExternal2" 24 "soc_proxy_fatal_alert_external_2",
    Enumerator.mk "kTopDarjeelingAlertIdSocProxyFatalAlertExternal3" 25 "soc_proxy_fatal_alert_external_3",
    Enumerator.mk "kTopDarjeelingAlertIdSocProxyFatalAlertExternal4" 26 "soc_proxy_fatal_alert_external_4",
    Enumerator.mk "kTopDarjeelingAlertIdSocProxyFatalAlertExternal5" 27 "soc_proxy_fatal_alert_external_5",
    Enumerator.mk "kTopDarjeelingAlertIdSocProxyFatalAlertExternal6" 28 "soc_proxy_fatal_alert_external_6",
    Enumerator.mk "kTopDarjeelingAlertIdSocProxyFatalAlertExternal7" 29 "soc_proxy_fatal_alert_external_7",
    Enumerator.mk "kTopDarjeelingAlertIdSocProxyFatalAlertExternal8" 30 "soc_proxy_fatal_alert_external_8",
    Enumerator.mk "kTopDarjeelingAlertIdSocProxyFatalAlertExternal9" 31 "soc_proxy_fatal_alert_external_9",
    Enumerator.mk "kTopDarjeelingAlertIdSocProxyFatalAlertExternal10" 32 "soc_proxy_fatal_alert_external_10",
    Enumerator.mk "kTopDarjeelingAlertIdSocProxyFatalAlertExternal11" 33 "soc_proxy_fatal_alert_external_11",
    Enumerator.mk "kTopDarjeelingAlertIdSocProxyFatalAlertExternal12" 34 "soc_proxy_fatal_alert_external_12",
    Enumerator.mk "kTopDarjeelingAlertIdSocProxyFatalAlertExternal13" 35 "soc_proxy_fatal_alert_external_13",
    Enumerator.mk "kTopDarjeelingAlertIdSocProxyFatalAlertExternal14" 36 "soc_proxy_fatal_alert_external_14",
    Enumerator.mk "kTopDarjeelingAlertIdSocProxyFatalAlertExternal15" 37 "soc_proxy_fatal_alert_external_15",
    Enumerator.mk "kTopDarjeelingAlertIdSocProxyFatalAlertExternal16" 38 "soc_proxy_fatal_alert_external_16",
    Enumerator.mk "kTopDarjeelingAlertIdSocProxyFatalAlertExternal17" 39 "soc_proxy_fatal_alert_external_17",
    Enumerator.mk "kTopDarjeelingAlertIdSocProxyFatalAlertExternal18" 40 "soc_proxy_fatal_alert_external_18",
    Enumerator.mk "kTopDarjeelingAlertIdSocProxyFatalAlertExternal19" 41 "soc_proxy_fatal_alert_external_19",
    Enumerator.mk "kTopDarjeelingAlertIdSocProxyFatalAlertExternal20" 42 "soc_proxy_fatal_alert_external_20",
    Enumerator.mk "kTopDarjeelingAlertIdSocProxyFatalAlertExternal21" 43 "soc_proxy_fatal_alert_external_21",
    Enumerator.mk "kTopDarjeelingAlertIdSocProxyFatalAlertExternal22" 44 "soc_proxy_fatal_alert_external_22",
    Enumerator.mk "kTopDarjeelingAlertIdSocProxyFatalAlertExternal23" 45 "soc_proxy_fatal_alert_external_23",
    Enumerator.mk "kTopDarjeelingAlertIdSocProxyRecovAlertExternal0" 46 "soc_proxy_recov_alert_external_0",
    Enumerator.mk "kTopDarjeelingAlertIdSocProxyRecovAlertExternal1" 47 "soc_proxy_recov_alert_external_1",
    Enumerator.mk "kTopDarjeelingAlertIdSocProxyRecovAlertExternal2" 48 "soc_proxy_recov_alert_external_2",
    Enumerator.mk "kTopDarjeelingAlertIdSocProxyRecovAlertExternal3" 49 "soc_proxy_recov_alert_external_3",
    Enumerator.mk "kTopDarjeelingAlertIdSramCtrlRetAonFatalError" 50 "sram_ctrl_ret_aon_fatal_error",
    Enumerator.mk "kTopDarjeelingAlertIdRvDmFatalFault" 51 "rv_dm_fatal_fault",
    Enumerator.mk "kTopDarjeelingAlertIdRvPlicFatalFault" 52 "rv_plic_fatal_fault",
    Enumerator.mk "kTopDarjeelingAlertIdAesRecovCtrlUpdateErr" 53 "aes_recov_ctrl_update_err",
    Enumerator.mk "kTopDarjeelingAlertIdAesFatalFault" 54 "aes_fatal_fault",
    Enumerator.mk "kTopDarjeelingAlertIdHmacFatalFault" 55 "hmac_fatal_fault",
    Enumerator.mk "kTopDarjeelingAlertIdKmacRecovOperationErr" 56 "kmac_recov_operation_err",
    Enumerator.mk "kTopDarjeelingAlertIdKmacFatalFaultErr" 57 "kmac_fatal_fault_err",
    Enumerator.mk "kTopDarjeelingAlertIdOtbnFatal" 58 "otbn_fatal",
    Enumerator.mk "kTopDarjeelingAlertIdOtbnRecov" 59 "otbn_recov",
    Enumerator.mk "kTopDarjeelingAlertIdKeymgrDpeRecovOperationErr" 60 "keymgr_dpe_recov_operation_err",
    Enumerator.mk "kTopDarjeelingAlertIdKeymgrDpeFatalFaultErr" 61 "keymgr_dpe_fatal_fault_err",
    Enumerator.mk "kTopDarjeelingAlertIdCsrngRecovAlert" 62 "csrng_recov_alert",
    Enumerator.mk "kTopDarjeelingAlertIdCsrngFatalAlert" 63 "csrng_fatal_alert",
    Enumerator.mk "kTopDarjeelingAlertIdEntropySrcRecovAlert" 64 "entropy_src_recov_alert",
    Enumerator.mk "kTopDarjeelingAlertIdEntropySrcFatalAlert" 65 "entropy_src_fatal_alert",
    Enumerator.mk "kTopDarjeelingAlertIdEdn0RecovAlert" 66 "edn0_recov_alert",
    Enumerator.mk "kTopDarjeelingAlertIdEdn0FatalAlert" 67 "edn0_fatal_alert",
    Enumerator.mk "kTopDarjeelingAlertIdEdn1RecovAlert" 68 "edn1_recov_alert",
    Enumerator.mk "kTopDarjeelingAlertIdEdn1FatalAlert" 69 "edn1_fatal_alert",
    Enumerator.mk "kTopDarjeelingAlertIdSramCtrlMainFatalError" 70 "sram_ctrl_main_fatal_error",
    Enumerator.mk "kTopDarjeelingAlertIdSramCtrlMboxFatalError" 71 "sram_ctrl_mbox_fatal_error",
    Enumerator.mk "kTopDarjeelingAlertIdRomCtrl0Fatal" 72 "rom_ctrl0_fatal",
    Enumerator.mk "kTopDarjeelingAlertIdRomCtrl1Fatal" 73 "rom_ctrl1_fatal",
    Enumerator.mk "kTopDarjeelingAlertIdDmaFatalFault" 74 "dma_fatal_fault",
    Enumerator.mk "kTopDarjeelingAlertIdMbx0FatalFault" 75 "mbx0_fatal_fault",
    Enumerator.mk "kTopDarjeelingAlertIdMbx0RecovFault" 76 "mbx0_recov_fault",
    Enumerator.mk "kTopDarjeelingAlertIdMbx1FatalFault" 77 "mbx1_fatal_fault",
    Enumerator.mk "kTopDarjeelingAlertIdMbx1RecovFault" 78 "mbx1_recov_fault",
    Enumerator.mk "kTopDarjeelingAlertIdMbx2FatalFault" 79 "mbx2_fatal_fault",
    Enumerator.mk "kTopDarjeelingAlertIdMbx2RecovFault" 80 "mbx2_recov_fault",
    Enumerator.mk "kTopDarjeelingAlertIdMbx3FatalFault" 81 "mbx3_fatal_fault",
    Enumerator.mk "kTopDarjeelingAlertIdMbx3RecovFault" 82 "mbx3_recov_fault",
    Enumerator.mk "kTopDarjeelingAlertIdMbx4FatalFault" 83 "mbx4_fatal_fault",
    Enumerator.mk "kTopDarjeelingAlertIdMbx4RecovFault" 84 "mbx4_recov_fault",
    Enumerator.mk "kTopDarjeelingAlertIdMbx5FatalFault" 85 "mbx5_fatal_fault",
    Enumerator.mk "kTopDarjeelingAlertIdMbx5RecovFault" 86 "mbx5_recov_fault",
    Enumerator.mk "kTopDarjeelingAlertIdMbx6FatalFault" 87 "mbx6_fatal_fault",
    Enumerator.mk "kTopDarjeelingAlertIdMbx6RecovFault" 88 "mbx6_recov_fault",
    Enumerator.mk "kTopDarjeelingAlertIdMbxJtagFatalFault" 89 "mbx_jtag_fatal_fault",
    Enumerator.mk "kTopDarjeelingAlertIdMbxJtagRecovFault" 90 "mbx_jtag_recov_fault",
    Enumerator.mk "kTopDarjeelingAlertIdMbxPcie0FatalFault" 91 "mbx_pcie0_fatal_fault",
    Enumerator.mk "kTopDarjeelingAlertIdMbxPcie0RecovFault" 92 "mbx_pcie0_recov_fault",
    Enumerator.mk "kTopDarjeelingAlertIdMbxPcie1FatalFault" 93 "mbx_pcie1_fatal_fault",
    Enumerator.mk "kTopDarjeelingAlertIdMbxPcie1RecovFault" 94 "mbx_pcie1_recov_fault",
    Enumerator.mk "kTopDarjeelingAlertIdSocDbgCtrlFatalFault" 95 "soc_dbg_ctrl_fatal_fault",
    Enumerator.mk "kTopDarjeelingAlertIdSocDbgCtrlRecovCtrlUpdateErr" 96 "soc_dbg_ctrl_recov_ctrl_update_err",
    Enumerator.mk "kTopDarjeelingAlertIdRaclCtrlFatalFault" 97 "racl_ctrl_fatal_fault",
    Enumerator.mk "kTopDarjeelingAlertIdRaclCtrlRecovCtrlUpdateErr" 98 "racl_ctrl_recov_ctrl_update_err",
    Enumerator.mk "kTopDarjeelingAlertIdAcRangeCheckRecovCtrlUpdateErr" 99 "ac_range_check_recov_ctrl_update_err",
    Enumerator.mk "kTopDarjeelingAlertIdAcRangeCheckFatalFault" 100 "ac_range_check_fatal_fault",
    Enumerator.mk "kTopDarjeelingAlertIdRvCoreIbexFatalSwErr" 101 "rv_core_ibex_fatal_sw_err",
    Enumerator.mk "kTopDarjeelingAlertIdRvCoreIbexRecovSwErr" 102 "rv_core_ibex_recov_sw_err",
    Enumerator.mk "kTopDarjeelingAlertIdRvCoreIbexFatalHwErr" 103 "rv_core_ibex_fatal_hw_err",
    Enumerator.mk "kTopDarjeelingAlertIdRvCoreIbexRecovHwErr" 104 "rv_core_ibex_recov_hw_err"]
  last := ⟨"kTopDarjeelingAlertIdLast", kTopDarjeelingAlertIdLast, "\\internal The Last Valid Alert ID."⟩

def kTopDarjeelingPinmuxPeripheralInLast : Nat := 3

/-- The enumeration `top_darjeeling_pinmux_peripheral_in_t`. -/
def top_darjeeling_pinmux_peripheral_in : CEnum where
  tag := "kTopDarjeelingPinmuxPeripheralIn"
  members := [
    Enumerator.mk "kTopDarjeelingPinmuxPeripheralInSocProxySocGpi12" 0 "Peripheral Input 0",
    Enumerator.mk "kTopDarjeelingPinmuxPeripheralInSocProxySocGpi13" 1 "Peripheral Input 1",
    Enumerator.mk "kTopDarjeelingPinmuxPeripheralInSocProxySocGpi14" 2 "Peripheral Input 2",
    Enumerator.mk "kTopDarjeelingPinmuxPeripheralInSocProxySocGpi15" 3 "Peripheral Input 3"]
  last := ⟨"kTopDarjeelingPinmuxPeripheralInLast", kTopDarjeelingPinmuxPeripheralInLast, "\\internal Last valid peripheral input"⟩

def kTopDarjeelingPinmuxInselLast : Nat := 13

/-- The enumeration `top_darjeeling_pinmux_insel_t`. -/
def top_darjeeling_pinmux_insel : CEnum where
  tag := "kTopDarjeelingPinmuxInsel"
  members := [
    Enumerator.mk "kTopDarjeelingPinmuxInselConstantZero" 0 "Tie constantly to zero",
    Enumerator.mk "kTopDarjeelingPinmuxInselConstantOne" 1 "Tie constantly to one",
    Enumerator.mk "kTopDarjeelingPinmuxInselMio0" 2 "MIO Pad 0",
    Enumerator.mk "kTopDarjeelingPinmuxInselMio1" 3 "MIO Pad 1",
    Enumerator.mk "kTopDarjeelingPinmuxInselMio2" 4 "MIO Pad 2",
    Enumerator.mk "kTopDarjeelingPinmuxInselMio3" 5 "MIO Pad 3",
    Enumerator.mk "kTopDarjeelingPinmuxInselMio4" 6 "MIO Pad 4",
    Enumerator.mk "kTopDarjeelingPinmuxInselMio5" 7 "MIO Pad 5",
    Enumerator.mk "kTopDarjeelingPinmuxInselMio6" 8 "MIO Pad 6",
    Enumerator.mk "kTopDarjeelingPinmuxInselMio7" 9 "MIO Pad 7",
    Enumerator.mk "kTopDarjeelingPinmuxInselMio8" 10 "MIO Pad 8",
    Enumerator.mk "kTopDarjeelingPinmuxInselMio9" 11 "MIO Pad 9",
    Enumerator.mk "kTopDarjeelingPinmuxInselMio10" 12 "MIO Pad 10",
    Enumerator.mk "kTopDarjeelingPinmuxInselMio11" 13 "MIO Pad 11"]
  last := ⟨"kTopDarjeelingPinmuxInselLast", kTopDarjeelingPinmuxInselLast, "\\internal Last valid insel value"⟩

def kTopDarjeelingPinmuxMioOutLast : Nat := 11

/-- The enumeration `top_darjeeling_pinmux_mio_out_t`. -/
def top_darjeeling_pinmux_mio_out : CEnum where
  tag := "kTopDarjeelingPinmuxMioOut"
  members := [
    Enumerator.mk "kTopDarjeelingPinmuxMioOutMio0" 0 "MIO Pad 0",
    Enumerator.mk "kTopDarjeelingPinmuxMioOutMio1" 1 "MIO Pad 1",
    Enumerator.mk "kTopDarjeelingPinmuxMioOutMio2" 2 "MIO Pad 2",
    Enumerator.mk "kTopDarjeelingPinmuxMioOutMio3" 3 "MIO Pad 3",
    Enumerator.mk "kTopDarjeelingPinmuxMioOutMio4" 4 "MIO Pad 4",
    Enumerator.mk "kTopDarjeelingPinmuxMioOutMio5" 5 "MIO Pad 5",
    Enumerator.mk "kTopDarjeelingPinmuxMioOutMio6" 6 "MIO Pad 6",
    Enumerator.mk "kTopDarjeelingPinmuxMioOutMio7" 7 "MIO Pad 7",
    Enumerator.mk "kTopDarjeelingPinmuxMioOutMio8" 8 "MIO Pad 8",
    Enumerator.mk "kTopDarjeelingPinmuxMioOutMio9" 9 "MIO Pad 9",
    Enumerator.mk "kTopDarjeelingPinmuxMioOutMio10" 10 "MIO Pad 10",
    Enumerator.mk "kTopDarjeelingPinmuxMioOutMio11" 11 "MIO Pad 11"]
  last := ⟨"kTopDarjeelingPinmuxMioOutLast", kTopDarjeelingPinmuxMioOutLast, "\\internal Last valid mio output"⟩

def kTopDarjeelingPinmuxOutselLast : Nat := 7

/-- The enumeration `top_darjeeling_pinmux_outsel_t`. -/
def top_darjeeling_pinmux_outsel : CEnum where
  tag := "kTopDarjeelingPinmuxOutsel"
  members := [
    Enumerator.mk "kTopDarjeelingPinmuxOutselConstantZero" 0 "Tie constantly to zero",
    Enumerator.mk "kTopDarjeelingPinmuxOutselConstantOne" 1 "Tie constantly to one",
    Enumerator.mk "kTopDarjeelingPinmuxOutselConstantHighZ" 2 "Tie constantly to high-Z",
    Enumerator.mk "kTopDarjeelingPinmuxOutselSocProxySocGpo12" 3 "Peripheral Output 0",
    Enumerator.mk "kTopDarjeelingPinmuxOutselSocProxySocGpo13" 4 "Peripheral Output 1",
    Enumerator.mk "kTopDarjeelingPinmuxOutselSocProxySocGpo14" 5 "Peripheral Output 2",
    Enumerator.mk "kTopDarjeelingPinmuxOutselSocProxySocGpo15" 6 "Peripheral Output 3",
    Enumerator.mk "kTopDarjeelingPinmuxOutselOtpMacroTest0" 7 "Peripheral Output 4"]
  last := ⟨"kTopDarjeelingPinmuxOutselLast", kTopDarjeelingPinmuxOutselLast, "\\internal Last valid outsel value"⟩

def kTopDarjeelingDirectPadsLast : Nat := 72

/-- The enumeration `top_darjeeling_direct_pads_t`. -/
def top_darjeeling_direct_pads : CEnum where
  tag := "kTopDarjeelingDirectPads"
  members := [
    Enumerator.mk "kTopDarjeelingDirectPadsSpiHost0Sd0" 0 "",
    Enumerator.mk "kTopDarjeelingDirectPadsSpiHost0Sd1" 1 "",
    Enumerator.mk "kTopDarjeelingDirectPadsSpiHost0Sd2" 2 "",
    Enumerator.mk "kTopDarjeelingDirectPadsSpiHost0Sd3" 3 "",
    Enumerator.mk "kTopDarjeelingDirectPadsSpiDeviceSd0" 4 "",
    Enumerator.mk "kTopDarjeelingDirectPadsSpiDeviceSd1" 5 "",
    Enumerator.mk "kTopDarjeelingDirectPadsSpiDeviceSd2" 6 "",
    Enumerator.mk "kTopDarjeelingDirectPadsSpiDeviceSd3" 7 "",
    Enumerator.mk "kTopDarjeelingDirectPadsI2c0Scl" 8 "",
    Enumerator.mk "kTopDarjeelingDirectPadsI2c0Sda" 9 "",
    Enumerator.mk "kTopDarjeelingDirectPadsGpioGpio0" 10 "",
    Enumerator.mk "kTopDarjeelingDirectPadsGpioGpio1" 11 "",
    Enumerator.mk "kTopDarjeelingDirectPadsGpioGpio2" 12 "",
    Enumerator.mk "kTopDarjeelingDirectPadsGpioGpio3" 13 "",
    Enumerator.mk "kTopDarjeelingDirectPadsGpioGpio4" 14 "",
    Enumerator.mk "kTopDarjeelingDirectPadsGpioGpio5" 15 "",
    Enumerator.mk "kTopDarjeelingDirectPadsGpioGpio6" 16 "",
    Enumerator.mk "kTopDarjeelingDirectPadsGpioGpio7" 17 "",
    Enumerator.mk "kTopDarjeelingDirectPadsGpioGpio8" 18 "",
    Enumerator.mk "kTopDarjeelingDirectPadsGpioGpio9" 19 "",
    Enumerator.mk "kTopDarjeelingDirectPadsGpioGpio10" 20 "",
    Enumerator.mk "kTopDarjeelingDirectPadsGpioGpio11" 21 "",
    Enumerator.mk "kTopDarjeelingDirectPadsGpioGpio12" 22 "",
    Enumerator.mk "kTopDarjeelingDirectPadsGpioGpio13" 23 "",
    Enumerator.mk "kTopDarjeelingDirectPadsGpioGpio14" 24 "",
    Enumerator.mk "kTopDarjeelingDirectPadsGpioGpio15" 25 "",
    Enumerator.mk "kTopDarjeelingDirectPadsGpioGpio16" 26 "",
    Enumerator.mk "kTopDarjeelingDirectPadsGpioGpio17" 27 "",
    Enumerator.mk "kTopDarjeelingDirectPadsGpioGpio18" 28 "",
    Enumerator.mk "kTopDarjeelingDirectPadsGpioGpio19" 29 "",
    Enumerator.mk "kTopDarjeelingDirectPadsGpioGpio20" 30 "",
    Enumerator.mk "kTopDarjeelingDirectPadsGpioGpio21" 31 "",
    Enumerator.mk "kTopDarjeelingDirectPadsGpioGpio22" 32 "",
    Enumerator.mk "kTopDarjeelingDirectPadsGpioGpio23" 33 "",
    Enumerator.mk "kTopDarjeelingDirectPadsGpioGpio24" 34 "",
    Enumerator.mk "kTopDarjeelingDirectPadsGpioGpio25" 35 "",
    Enumerator.mk "kTopDarjeelingDirectPadsGpioGpio26" 36 "",
    Enumerator.mk "kTopDarjeelingDirectPadsGpioGpio27" 37 "",
    Enumerator.mk "kTopDarjeelingDirectPadsGpioGpio28" 38 "",
    Enumerator.mk "kTopDarjeelingDirectPadsGpioGpio29" 39 "",
    Enumerator.mk "kTopDarjeelingDirectPadsGpioGpio30" 40 "",
    Enumerator.mk "kTopDarjeelingDirectPadsGpioGpio31" 41 "",
    Enumerator.mk "kTopDarjeelingDirectPadsSpiDeviceSck" 42 "",
    Enumerator.mk "kTopDarjeelingDirectPadsSpiDeviceCsb" 43 "",
    Enumerator.mk "kTopDarjeelingDirectPadsSpiDeviceTpmCsb" 44 "",
    Enumerator.mk "kTopDarjeelingDirectPadsUart0Rx" 45 "",
    Enumerator.mk "kTopDarjeelingDirectPadsSocProxySocGpi0" 46 "",
    Enumerator.mk "kTopDarjeelingDirectPadsSocProxySocGpi1" 47 "",
    Enumerator.mk "kTopDarjeelingDirectPadsSocProxySocGpi2" 48 "",
    Enumerator.mk "kTopDarjeelingDirectPadsSocProxySocGpi3" 49 "",
    Enumerator.mk "kTopDarjeelingDirectPadsSocProxySocGpi4" 50 "",
    Enumerator.mk "kTopDarjeelingDirectPadsSocProxySocGpi5" 51 "",
    Enumerator.mk "kTopDarjeelingDirectPadsSocProxySocGpi6" 52 "",
    Enumerator.mk "kTopDarjeelingDirectPadsSocProxySocGpi7" 53 "",
    Enumerator.mk "kTopDarjeelingDirectPadsSocProxySocGpi8" 54 "",
    Enumerator.mk "kTopDarjeelingDirectPadsSocProxySocGpi9" 55 "",
    Enumerator.mk "kTopDarjeelingDirectPadsSocProxySocGpi10" 56 "",
    Enumerator.mk "kTopDarjeelingDirectPadsSocProxySocGpi11" 57 "",
    Enumerator.mk "kTopDarjeelingDirectPadsSpiHost0Sck" 58 "",
    Enumerator.mk "kTopDarjeelingDirectPadsSpiHost0Csb" 59 "",
    Enumerator.mk "kTopDarjeelingDirectPadsUart0Tx" 60 "",
    Enumerator.mk "kTopDarjeelingDirectPadsSocProxySocGpo0" 61 "",
    Enumerator.mk "kTopDarjeelingDirectPadsSocProxySocGpo1" 62 "",
    Enumerator.mk "kTopDarjeelingDirectPadsSocProxySocGpo2" 63 "",
    Enumerator.mk "kTopDarjeelingDirectPadsSocProxySocGpo3" 64 "",
    Enumerator.mk "kTopDarjeelingDirectPadsSocProxySocGpo4" 65 "",
    Enumerator.mk "kTopDarjeelingDirectPadsSocProxySocGpo5" 66 "",
    Enumerator.mk "kTopDarjeelingDirectPadsSocProxySocGpo6" 67 "",
    Enumerator.mk "kTopDarjeelingDirectPadsSocProxySocGpo7" 68 "",
    Enumerator.mk "kTopDarjeelingDirectPadsSocProxySocGpo8" 69 "",
    Enumerator.mk "kTopDarjeelingDirectPadsSocProxySocGpo9" 70 "",
    Enumerator.mk "kTopDarjeelingDirectPadsSocProxySocGpo10" 71 "",
    Enumerator.mk "kTopDarjeelingDirectPadsSocProxySocGpo11" 72 ""]
  last := ⟨"kTopDarjeelingDirectPadsLast", kTopDarjeelingDirectPadsLast, "\\internal Last valid direct pad"⟩

def kTopDarjeelingMuxedPadsLast : Nat := 11

/-- The enumeration `top_darjeeling_muxed_pads_t`. -/
def top_darjeeling_muxed_pads : CEnum where
  tag := "kTopDarjeelingMuxedPads"
  members := [
    Enumerator.mk "kTopDarjeelingMuxedPadsMio0" 0 "",
    Enumerator.mk "kTopDarjeelingMuxedPadsMio1" 1 "",
    Enumerator.mk "kTopDarjeelingMuxedPadsMio2" 2 "",
    Enumerator.mk "kTopDarjeelingMuxedPadsMio3" 3 "",
    Enumerator.mk "kTopDarjeelingMuxedPadsMio4" 4 "",
    Enumerator.mk "kTopDarjeelingMuxedPadsMio5" 5 "",
    Enumerator.mk "kTopDarjeelingMuxedPadsMio6" 6 "",
    Enumerator.mk "kTopDarjeelingMuxedPadsMio7" 7 "",
    Enumerator.mk "kTopDarjeelingMuxedPadsMio8" 8 "",
    Enumerator.mk "kTopDarjeelingMuxedPadsMio9" 9 "",
    Enumerator.mk "kTopDarjeelingMuxedPadsMio10" 10 "",
    Enumerator.mk "kTopDarjeelingMuxedPadsMio11" 11 ""]
  last := ⟨"kTopDarjeelingMuxedPadsLast", kTopDarjeelingMuxedPadsLast, "\\internal Last valid muxed pad"⟩

def kTopDarjeelingPowerManagerWakeUpsLast : Nat := 3

/-- The enumeration `top_darjeeling_power_manager_wake_ups_t`. -/
def top_darjeeling_power_manager_wake_ups : CEnum where
  tag := "kTopDarjeelingPowerManagerWakeUps"
  members := [
    Enumerator.mk "kTopDarjeelingPowerManagerWakeUpsPinmuxAonPinWkupReq" 0 "",
    Enumerator.mk "kTopDarjeelingPowerManagerWakeUpsAonTimerAonWkupReq" 1 "",
    Enumerator.mk "kTopDarjeelingPowerManagerWakeUpsSocProxyWkupInternalReq" 2 "",
    Enumerator.mk "kTopDarjeelingPowerManagerWakeUpsSocProxyWkupExternalReq" 3 ""]
  last := ⟨"kTopDarjeelingPowerManagerWakeUpsLast", kTopDarjeelingPowerManagerWakeUpsLast, "\\internal Last valid pwrmgr wakeup signal"⟩

def kTopDarjeelingResetManagerSwResetsLast : Nat := 2

/-- The enumeration `top_darjeeling_reset_manager_sw_resets_t`. -/
def top_darjeeling_reset_manager_sw_resets : CEnum where
  tag := "kTopDarjeelingResetManagerSwResets"
  members := [
    Enumerator.mk "kTopDarjeelingResetManagerSwResetsSpiDevice" 0 "",
    Enumerator.mk "kTopDarjeelingResetManagerSwResetsSpiHost0" 1 "",
    Enumerator.mk "kTopDarjeelingResetManagerSwResetsI2c0" 2 ""]
  last := ⟨"kTopDarjeelingResetManagerSwResetsLast", kTopDarjeelingResetManagerSwResetsLast, "\\internal Last valid rstmgr software reset request"⟩

def kTopDarjeelingPowerManagerResetRequestsLast : Nat := 1

/-- The enumeration `top_darjeeling_power_manager_reset_requests_t`. -/
def top_darjeeling_power_manager_reset_requests : CEnum where
  tag := "kTopDarjeelingPowerManagerResetRequests"
  members := [
    Enumerator.mk "kTopDarjeelingPowerManagerResetRequestsAonTimerAonAonTimerRstReq" 0 "",
    Enumerator.mk "kTopDarjeelingPowerManagerResetRequestsSocProxyRstReqExternal" 1 ""]
  last := ⟨"kTopDarjeelingPowerManagerResetRequestsLast", kTopDarjeelingPowerManagerResetRequestsLast, "\\internal Last valid pwrmgr reset_request signal"⟩

def kTopDarjeelingGateableClocksLast : Nat := 1

/-- The enumeration `top_darjeeling_gateable_clocks_t`. -/
def top_darjeeling_gateable_clocks : CEnum where
  tag := "kTopDarjeelingGateableClocks"
  members := [
    Enumerator.mk "kTopDarjeelingGateableClocksIoDiv4Peri" 0 "Clock clk_io_div4_peri in group peri",
    Enumerator.mk "kTopDarjeelingGateableClocksIoDiv2Peri" 1 "Clock clk_io_div2_peri in group peri"]
  last := ⟨"kTopDarjeelingGateableClocksLast", kTopDarjeelingGateableClocksLast, "\\internal Last Valid Gateable Clock"⟩

def kTopDarjeelingHintableClocksLast : Nat := 3

/-- The enumeration `top_darjeeling_hintable_clocks_t`. -/
def top_darjeeling_hintable_clocks : CEnum where
  tag := "kTopDarjeelingHintableClocks"
  members := [
    Enumerator.mk "kTopDarjeelingHintableClocksMainAes" 0 "Clock clk_main_aes in group trans",
    Enumerator.mk "kTopDarjeelingHintableClocksMainHmac" 1 "Clock clk_main_hmac in group trans",
    Enumerator.mk "kTopDarjeelingHintableClocksMainKmac" 2 "Clock clk_main_kmac in group trans",
    Enumerator.mk "kTopDarjeelingHintableClocksMainOtbn" 3 "Clock clk_main_otbn in group trans"]
  last := ⟨"kTopDarjeelingHintableClocksLast", kTopDarjeelingHintableClocksLast, "\\internal Last Valid Hintable Clock"⟩

/-! ## Reverse-lookup tables (declarations) -/

/-- Declared length of `top_darjeeling_plic_interrupt_for_peripheral[164]`. -/
def top_darjeeling_plic_interrupt_for_peripheral_len : Nat := 164

/-- Declared length of `top_darjeeling_alert_for_peripheral[105]`. -/
def top_darjeeling_alert_for_peripheral_len : Nat := 105

/-! ## Pinmux constants -/

def PINMUX_MIO_PERIPH_INSEL_IDX_OFFSET : Nat := 2

def NUM_MIO_PADS : Nat := 12

def NUM_DIO_PADS : Nat := 73

def PINMUX_PERIPH_OUTSEL_IDX_OFFSET : Nat := 3

/-! ## Derived notions -/

/-- The values of the named enumerators, in declaration order. -/
def CEnum.values (E : CEnum) : List Nat :=
  E.members.map Enumerator.value

/-- The named enumerators (the `Last` alias apart) whose value is `n`. -/
def CEnum.named (E : CEnum) (n : Nat) : List Enumerator :=
  E.members.filter (fun e => e.value == n)

/-- The part of an enumerator identifier that follows the prefix `tag`. -/
def Enumerator.stem (tag : String) (e : Enumerator) : List Char :=
  e.name.toList.drop tag.length

/-- The peripherals of `P` whose identifier stem is a prefix of the identifier
stem of the source `e` of `S`: `Uart0` for `Uart0TxWatermark`. -/
def ownersOf (P S : CEnum) (e : Enumerator) : List Enumerator :=
  P.members.filter (fun p => (p.stem P.tag).isPrefixOf (e.stem S.tag))

/-- The owning peripheral (its ordinal in `P`) of the source of `S` with value
`id`.  It is defined when exactly one named source has the value `id` and
exactly one peripheral is named by the prefix of that source. -/
def owner? (P S : CEnum) (id : Nat) : Option Nat :=
  match S.named id with
  | [e] =>
    match ownersOf P S e with
    | [p] => some p.value
    | _ => none
  | _ => none

/-- Owning PLIC peripheral of an interrupt ID in the forward enumeration. -/
def plic_owner? (id : Nat) : Option Nat :=
  owner? top_darjeeling_plic_peripheral top_darjeeling_plic_irq_id id

/-- Owning alert peripheral of an alert ID in the forward enumeration. -/
def alert_owner? (id : Nat) : Option Nat :=
  owner? top_darjeeling_alert_peripheral top_darjeeling_alert_id id

/-- The documented alias pairs of the specification: the `rom` device of each
ROM controller and the ROM memory region of the same number, as
(module, device, memory region). -/
def romAliasPairs : List (String × String × String) :=
  [("rom_ctrl0", "rom", "rom0"), ("rom_ctrl1", "rom", "rom1")]

/-- The pairs of a memory device of a module and the memory region it backs,
as (module, device, memory region). -/
def memoryAliasPairs : List (String × String × String) :=
  [("soc_proxy", "ctn", "ctn"),
   ("sram_ctrl_ret_aon", "ram", "ram_ret_aon"),
   ("sram_ctrl_main", "ram", "ram_main"),
   ("sram_ctrl_mbox", "ram", "ram_mbox"),
   ("rom_ctrl0", "rom", "rom0"),
   ("rom_ctrl1", "rom", "rom1")]

/-- The peripheral region `p` and the memory region `m` form one of `pairs`. -/
def Region.aliasIn (pairs : List (String × String × String)) (p m : Region) : Bool :=
  pairs.contains (p.module, p.device, m.module)

/-! ## Reverse-lookup tables and lookup operations (contents) -/

/-- Modelled from the spec: the initialiser of
`top_darjeeling_plic_interrupt_for_peripheral` is in `top_darjeeling.c`, which
is not among the sources at hand; the header declares only the element type
and the length of the array.  The specification requires the table to "match
the forward declarations index-for-index": entry `id` is the owning peripheral
of interrupt `id`, and `kTopDarjeelingPlicPeripheralUnknown` for an ID that no
peripheral owns. -/
def top_darjeeling_plic_interrupt_for_peripheral : List Nat :=
  (List.range top_darjeeling_plic_interrupt_for_peripheral_len).map
    (fun id => (plic_owner? id).getD kTopDarjeelingPlicPeripheralUnknown)

/-- Modelled from the spec: the initialiser of
`top_darjeeling_alert_for_peripheral` is in `top_darjeeling.c`, which is not
among the sources at hand.  Entry `id` is the owning peripheral of alert `id`,
and `kTopDarjeelingAlertPeripheralExternal` for an ID that no peripheral of
the enumeration owns. -/
def top_darjeeling_alert_for_peripheral : List Nat :=
  (List.range top_darjeeling_alert_for_peripheral_len).map
    (fun id => (alert_owner? id).getD kTopDarjeelingAlertPeripheralExternal)

/-- The failures of the lookup operations named by the specification. -/
inductive LookupError where
  | UnknownPeripheral
  | OutOfRange
deriving DecidableEq, Repr

/-- Modelled from the spec: the header has no lookup function, only the
enumerations and the declaration of the reverse table.  The specification
describes `interrupt_owning_peripheral(interrupt_id) -> Peripheral`, which
"returns the owning peripheral for a given interrupt ordinal; fails with
`OutOfRange` if `interrupt_id` exceeds the maximum declared ID".  The
peripheral is returned as its ordinal in `top_darjeeling_plic_peripheral_t`,
read from the reverse table. -/
def interrupt_owning_peripheral (interrupt_id : Nat) : Except LookupError Nat :=
  if kTopDarjeelingPlicIrqIdLast < interrupt_id then
    Except.error LookupError.OutOfRange
  else
    match top_darjeeling_plic_interrupt_for_peripheral[interrupt_id]? with
    | some p => Except.ok p
    | none => Except.error LookupError.OutOfRange

/-- Modelled from the spec: `alert_owning_peripheral(alert_id) -> Peripheral`,
"symmetric to the above for alerts".  The peripheral is returned as its ordinal
in `top_darjeeling_alert_peripheral_t`, read from the reverse table. -/
def alert_owning_peripheral (alert_id : Nat) : Except LookupError Nat :=
  if kTopDarjeelingAlertIdLast < alert_id then
    Except.error LookupError.OutOfRange
  else
    match top_darjeeling_alert_for_peripheral[alert_id]? with
    | some p => Except.ok p
    | none => Except.error LookupError.OutOfRange

/-! ## Lookups by name and by ordinal, and further derived notions -/

/-- The name of a region as its macros spell it, in lower case: the module,
followed by `_` and the device when the doc comment names one (`uart0` for
`TOP_DARJEELING_UART0_*`, `otp_ctrl_core` for `TOP_DARJEELING_OTP_CTRL_CORE_*`). -/
def Region.name (r : Region) : String :=
  if r.device = "" then r.module else r.module ++ "_" ++ r.device

/-- Modelled from the spec: the header has no lookup by name, only the
constants.  The specification describes
`peripheral_base_address(name) -> integer`, which "returns the fixed base
address; fails with `UnknownPeripheral` if name not in the fixed set".  The
fixed set is the list of the peripheral device regions of the header. -/
def peripheral_base_address (name : String) : Except LookupError Nat :=
  match peripherals.find? (fun r => r.name == name) with
  | some r => Except.ok r.base
  | none => Except.error LookupError.UnknownPeripheral

/-- Modelled from the spec: `peripheral_size_bytes(name) -> integer`, which
"returns the fixed reserved region size; same failure mode for unknown
names". -/
def peripheral_size_bytes (name : String) : Except LookupError Nat :=
  match peripherals.find? (fun r => r.name == name) with
  | some r => Except.ok r.size
  | none => Except.error LookupError.UnknownPeripheral

/-- Modelled from the spec: the header has no accessor function, only the
enumerations.  The specification describes enumeration accessors that "return
the fixed ordinal-to-name mapping; fail with `OutOfRange` for ordinals beyond
the declared maximum".  The name is the identifier of the named enumerator
with the given value. -/
def CEnum.nameOf (E : CEnum) (n : Nat) : Except LookupError String :=
  if E.last.value < n then
    Except.error LookupError.OutOfRange
  else
    match E.members.find? (fun e => e.value == n) with
    | some e => Except.ok e.name
    | none => Except.error LookupError.OutOfRange

/-- The sixteen enumerations of the header, in declaration order. -/
def enumerations : List CEnum :=
  [top_darjeeling_plic_peripheral, top_darjeeling_plic_irq_id, top_darjeeling_plic_target,
   top_darjeeling_alert_peripheral, top_darjeeling_alert_id,
   top_darjeeling_pinmux_peripheral_in, top_darjeeling_pinmux_insel,
   top_darjeeling_pinmux_mio_out, top_darjeeling_pinmux_outsel,
   top_darjeeling_direct_pads, top_darjeeling_muxed_pads,
   top_darjeeling_power_manager_wake_ups, top_darjeeling_reset_manager_sw_resets,
   top_darjeeling_power_manager_reset_requests, top_darjeeling_gateable_clocks,
   top_darjeeling_hintable_clocks]

/-- The named enumerators whose identifier, after the tag, is `s`. -/
def CEnum.withStem (E : CEnum) (s : String) : List Enumerator :=
  E.members.filter (fun e => e.stem E.tag == s.toList)

/-- The named enumerators whose doc comment is `d`. -/
def CEnum.withDoc (E : CEnum) (d : String) : List Enumerator :=
  E.members.filter (fun e => e.doc == d)

/-- The region `a` lies wholly inside the region `b`. -/
def Region.within (a b : Region) : Prop :=
  b.base ≤ a.base ∧ a.base + a.size ≤ b.base + b.size

instance (a b : Region) : Decidable (a.within b) := by
  unfold Region.within; infer_instance

/-- The characters `pat` occur consecutively somewhere in `s`. -/
def occursIn (pat s : List Char) : Bool :=
  s.tails.any (fun t => pat.isPrefixOf t)

/-! ## Alignment, 32-bit end addresses and modules -/

/-- The end address `BASE_ADDR + SIZE_BYTES` of a region as C computes it on
the `unsigned` 32-bit constants of the header. -/
def Region.end32 (r : Region) : Nat :=
  (r.base + r.size) % 2 ^ 32

/-- Executable test that the size of a region is one of `2 ^ 0, ..., 2 ^ 32`. -/
def Region.sizeIsPow2 (r : Region) : Bool :=
  (List.range 33).any (fun k => r.size == 2 ^ k)

/-- Executable test of natural alignment: the size is a power of two and
divides the base address. -/
def Region.aligned (r : Region) : Bool :=
  r.sizeIsPow2 && r.base % r.size == 0

/-- The modules named by a peripheral enumeration: the doc comments (`uart0`,
`gpio`, ...) of its enumerators of value at least 1.  The value 0 is the
placeholder of the enumeration (`Unknown Peripheral`, `External Peripheral`),
which names no module. -/
def CEnum.modules (E : CEnum) : List String :=
  (E.members.filter (fun e => decide (1 ≤ e.value))).map Enumerator.doc

/-- The ordinal of the module `m` in a peripheral enumeration, when an
enumerator of value at least 1 has the doc comment `m`. -/
def CEnum.ordinalOf? (E : CEnum) (m : String) : Option Nat :=
  (E.members.find? (fun e => decide (1 ≤ e.value) && e.doc == m)).map Enumerator.value

/-- The owners of the IDs `0, 1, ...` written as runs: `(p, n)` stands for `n`
consecutive IDs of owner `p`. -/
def expandRuns (runs : List (Nat × Nat)) : List (Option Nat) :=
  (runs.map (fun r => List.replicate r.2 (some r.1))).flatten

/-! ## Regions: helper lemmas -/

theorem Region.disjoint_of_apart {a b : Region} (h : a.apart b = true) : a.disjoint b := by
  intro x hx
  simp only [Region.apart, Bool.or_eq_true, decide_eq_true_eq] at h
  obtain ⟨⟨_, h2⟩, ⟨_, h4⟩⟩ := hx
  omega

theorem Region.apart_comm (a b : Region) : a.apart b = b.apart a := by
  simp only [Region.apart, Bool.or_comm]

/-- Entries at two different positions of a list that is pairwise apart are
disjoint regions. -/
theorem disjoint_of_pairwise_apart {l : List Region}
    (h : l.Pairwise (fun a b => a.apart b = true)) {i j : Nat} {p q : Region}
    (hi : l[i]? = some p) (hj : l[j]? = some q) (hij : i ≠ j) : p.disjoint q := by
  rw [List.pairwise_iff_getElem] at h
  obtain ⟨hi', rfl⟩ := List.getElem?_eq_some.mp hi
  obtain ⟨hj', rfl⟩ := List.getElem?_eq_some.mp hj
  rcases Nat.lt_or_gt_of_ne hij with hlt | hgt
  · exact Region.disjoint_of_apart (h i j hi' hj' hlt)
  · exact Region.disjoint_of_apart ((Region.apart_comm _ _).trans (h j i hj' hi' hgt))

theorem peripherals_pairwise_apart :
    peripherals.Pairwise (fun a b => a.apart b = true) := by
  decide!

theorem memories_pairwise_apart :
    memories.Pairwise (fun a b => a.apart b = true) := by
  decide!

theorem peripherals_apart_from_memories :
    ∀ p ∈ peripherals, ∀ m ∈ memories,
      p.aliasIn memoryAliasPairs m = true ∨ p.apart m = true := by
  decide!

/-! ## Regions: the properties -/

/-- C1: the 53 peripheral device regions (`uart0` to the `cfg` device of
`rv_core_ibex`) are pairwise disjoint: two regions declared at different
positions of the list have no address in common. -/
theorem peripheral_regions_disjoint :
    peripherals.length = 53 ∧
    ∀ (i j : Nat) (p q : Region), peripherals[i]? = some p → peripherals[j]? = some q →
      i ≠ j → ∀ x, ¬ (p.contains x ∧ q.contains x) :=
  ⟨by decide, fun _ _ _ _ hi hj hij =>
    disjoint_of_pairwise_apart peripherals_pairwise_apart hi hj hij⟩

/-- Witness of C1 at `uart0` (position 0) and `gpio` (position 1) and the
address `0x30000000`. -/
theorem peripheral_regions_disjoint_witness :
    ¬ ((Region.mk "uart0" "" 0x30010000 0x40).contains 0x30000000 ∧
       (Region.mk "gpio" "" 0x30000000 0x100).contains 0x30000000) :=
  peripheral_regions_disjoint.2 0 1 _ _ (by decide!) (by decide!) (by decide) 0x30000000

/-- C2, refuted as stated: the `ram` device of `sram_ctrl_main` is a declared
peripheral region, `ram_main` is a memory region, the pair is not one of the two
ROM alias pairs, and both contain the address `0x10000000`; so it is false that
every peripheral region is disjoint from every memory region outside the ROM
alias pairs. -/
theorem peripheral_memory_overlap_outside_rom_aliases :
    Region.mk "sram_ctrl_main" "ram" 0x10000000 0x10000 ∈ peripherals ∧
    Region.mk "ram_main" "" 0x10000000 0x10000 ∈ memories ∧
    (Region.mk "sram_ctrl_main" "ram" 0x10000000 0x10000).aliasIn romAliasPairs
      (Region.mk "ram_main" "" 0x10000000 0x10000) = false ∧
    (Region.mk "sram_ctrl_main" "ram" 0x10000000 0x10000).contains 0x10000000 ∧
    (Region.mk "ram_main" "" 0x10000000 0x10000).contains 0x10000000 ∧
    ¬ (∀ p ∈ peripherals, ∀ m ∈ memories,
        p.aliasIn romAliasPairs m = false → ∀ x, ¬ (p.contains x ∧ m.contains x)) := by
  refine ⟨by decide!, by decide!, by decide!, by decide!, by decide!, ?_⟩
  intro h
  exact h (Region.mk "sram_ctrl_main" "ram" 0x10000000 0x10000) (by decide!)
    (Region.mk "ram_main" "" 0x10000000 0x10000) (by decide!) (by decide!)
    0x10000000 ⟨by decide!, by decide!⟩

/-- C2, amended: every peripheral region is disjoint from every peripheral
region declared at another position, and from every memory region other than
the one it backs; the exceptions are the six pairs of `memoryAliasPairs`
(`ctn`, `ram_ret_aon`, `ram_main`, `ram_mbox`, `rom0`, `rom1` with the memory
device of their controller), not only the two ROM pairs. -/
theorem peripheral_regions_disjoint_except_memory_aliases :
    (∀ (i j : Nat) (p q : Region), peripherals[i]? = some p → peripherals[j]? = some q →
      i ≠ j → ∀ x, ¬ (p.contains x ∧ q.contains x)) ∧
    (∀ p ∈ peripherals, ∀ m ∈ memories,
      p.aliasIn memoryAliasPairs m = false → ∀ x, ¬ (p.contains x ∧ m.contains x)) := by
  refine ⟨fun _ _ _ _ hi hj hij =>
    disjoint_of_pairwise_apart peripherals_pairwise_apart hi hj hij, ?_⟩
  intro p hp m hm hal
  rcases peripherals_apart_from_memories p hp m hm with h | h
  · rw [h] at hal; exact absurd hal (by decide)
  · exact Region.disjoint_of_apart h

/-- Witness of amended C2 at the `regs` device of `rom_ctrl0` and the memory
region `rom0`, which the controller's `rom` device backs, not its `regs`
device. -/
theorem peripheral_regions_disjoint_except_memory_aliases_witness :
    ¬ ((Region.mk "rom_ctrl0" "regs" 0x211E0000 0x80).contains 0x8000 ∧
       (Region.mk "rom0" "" 0x8000 0x8000).contains 0x8000) :=
  peripheral_regions_disjoint_except_memory_aliases.2
    (Region.mk "rom_ctrl0" "regs" 0x211E0000 0x80) (by decide!)
    (Region.mk "rom0" "" 0x8000 0x8000) (by decide!) (by decide!) 0x8000

/-- C3: the six memory regions (`ctn`, `ram_ret_aon`, `ram_main`, `ram_mbox`,
`rom0`, `rom1`) are pairwise disjoint. -/
theorem memory_regions_disjoint :
    memories.map Region.module =
      ["ctn", "ram_ret_aon", "ram_main", "ram_mbox", "rom0", "rom1"] ∧
    ∀ (i j : Nat) (p q : Region), memories[i]? = some p → memories[j]? = some q →
      i ≠ j → ∀ x, ¬ (p.contains x ∧ q.contains x) :=
  ⟨by decide!, fun _ _ _ _ hi hj hij =>
    disjoint_of_pairwise_apart memories_pairwise_apart hi hj hij⟩

/-- Witness of C3 at `rom0` (position 4) and `rom1` (position 5). -/
theorem memory_regions_disjoint_witness :
    ¬ ((Region.mk "rom0" "" 0x8000 0x8000).contains 0x20000 ∧
       (Region.mk "rom1" "" 0x20000 0x10000).contains 0x20000) :=
  memory_regions_disjoint.2 4 5 _ _ (by decide!) (by decide!) (by decide) 0x20000

/-- C4: `ROM0` has the base address and the size of `ROM_CTRL0_ROM`, `ROM1`
those of `ROM_CTRL1_ROM`, and each ROM base address differs from the base
address of the `regs` device of its controller. -/
theorem rom_regions_coincide_with_rom_ctrl_rom :
    TOP_DARJEELING_ROM0_BASE_ADDR = TOP_DARJEELING_ROM_CTRL0_ROM_BASE_ADDR ∧
    TOP_DARJEELING_ROM0_SIZE_BYTES = TOP_DARJEELING_ROM_CTRL0_ROM_SIZE_BYTES ∧
    TOP_DARJEELING_ROM1_BASE_ADDR = TOP_DARJEELING_ROM_CTRL1_ROM_BASE_ADDR ∧
    TOP_DARJEELING_ROM1_SIZE_BYTES = TOP_DARJEELING_ROM_CTRL1_ROM_SIZE_BYTES ∧
    TOP_DARJEELING_ROM0_BASE_ADDR ≠ TOP_DARJEELING_ROM_CTRL0_REGS_BASE_ADDR ∧
    TOP_DARJEELING_ROM1_BASE_ADDR ≠ TOP_DARJEELING_ROM_CTRL1_REGS_BASE_ADDR := by
  decide

/-! ## Enumerations: helper lemmas -/

/-- A function that does not decrease from each index of `[lo, hi)` to the
next is non-decreasing on `[lo, hi]`. -/
theorem mono_of_adjacent (f : Nat → Nat) (lo hi : Nat)
    (hadj : ∀ i, i < hi → lo ≤ i → f i ≤ f (i + 1)) :
    ∀ a b, lo ≤ a → a ≤ b → b ≤ hi → f a ≤ f b := by
  intro a b hlo hab
  induction b, hab using Nat.le_induction with
  | base => intro _; exact Nat.le_refl _
  | succ n han ih =>
    intro hn
    exact Nat.le_trans (ih (by omega)) (hadj n (by omega) (by omega))

/-- When every index of `[lo, hi]` has an owner and the owner ordinal does not
decrease from one index to the next, the indices of one owner form a single
run. -/
theorem contiguous_of_adjacent (g : Nat → Option Nat) (lo hi : Nat)
    (hsome : ∀ i, i < hi + 1 → lo ≤ i → (g i).isSome = true)
    (hadj : ∀ i, i < hi → lo ≤ i → (g i).getD 0 ≤ (g (i + 1)).getD 0) :
    ∀ a b c, lo ≤ a → a < c → c < b → b ≤ hi → g a = g b → g c = g a := by
  intro a b c hlo hac hcb hb hab
  have hmono := mono_of_adjacent (fun i => (g i).getD 0) lo hi hadj
  have h1 : (g a).getD 0 ≤ (g c).getD 0 := hmono a c hlo (by omega) (by omega)
  have h2 : (g c).getD 0 ≤ (g b).getD 0 := hmono c b (by omega) (by omega) hb
  have ha := hsome a (by omega) hlo
  have hc := hsome c (by omega) (by omega)
  rw [← hab] at h2
  obtain ⟨va, hva⟩ := Option.isSome_iff_exists.mp ha
  obtain ⟨vc, hvc⟩ := Option.isSome_iff_exists.mp hc
  rw [hva, hvc] at h1 h2
  simp only [Option.getD_some] at h1 h2
  rw [hva, hvc]
  congr 1
  omega

theorem plic_owner_isSome :
    ∀ i, i < 163 + 1 → 1 ≤ i → (plic_owner? i).isSome = true := by
  decide!

theorem plic_owner_adjacent :
    ∀ i, i < 163 → 1 ≤ i → (plic_owner? i).getD 0 ≤ (plic_owner? (i + 1)).getD 0 := by
  decide!

theorem alert_owner_isSome :
    ∀ i, i < 104 + 1 → 0 ≤ i → (alert_owner? i).isSome = true := by
  decide!

theorem alert_owner_adjacent :
    ∀ i, i < 104 → 0 ≤ i → (alert_owner? i).getD 0 ≤ (alert_owner? (i + 1)).getD 0 := by
  decide!

/-! ## Enumerations: the properties -/

/-- C5: the PLIC interrupt ID enumeration has no gaps.  The source of value 0
is the reserved `kTopDarjeelingPlicIrqIdNone`; every integer of `[0, 163]` is
the value of exactly one named source (the `Last` alias apart); the values are
strictly increasing in declaration order, being `0, 1, ..., 163`; and
`kTopDarjeelingPlicIrqIdLast` is 163, the greatest value of a source. -/
theorem plic_irq_id_no_gaps :
    top_darjeeling_plic_irq_id.named 0 =
      [Enumerator.mk "kTopDarjeelingPlicIrqIdNone" 0 "No Interrupt"] ∧
    (∀ n, n ≤ 163 → (top_darjeeling_plic_irq_id.named n).length = 1) ∧
    top_darjeeling_plic_irq_id.values.Pairwise (fun a b => a < b) ∧
    top_darjeeling_plic_irq_id.values = List.range (163 + 1) ∧
    kTopDarjeelingPlicIrqIdLast = 163 ∧
    top_darjeeling_plic_irq_id.last =
      Enumerator.mk "kTopDarjeelingPlicIrqIdLast" 163 "\\internal The Last Valid Interrupt ID." ∧
    (∀ v ∈ top_darjeeling_plic_irq_id.values, v ≤ kTopDarjeelingPlicIrqIdLast) ∧
    kTopDarjeelingPlicIrqIdLast ∈ top_darjeeling_plic_irq_id.values := by
  refine ⟨by decide!, by decide!, by decide!, by decide!, by decide!, by decide!,
    by decide!, by decide!⟩

/-- Witness of C5 at the value 42. -/
theorem plic_irq_id_no_gaps_witness :
    (top_darjeeling_plic_irq_id.named 42).length = 1 :=
  plic_irq_id_no_gaps.2.1 42 (by decide)

/-- C6: every interrupt ID of `[1, 163]` has an owning peripheral, named by
the prefix of its source, which is an enumerator of
`top_darjeeling_plic_peripheral_t` other than `Unknown`; and the IDs of one
owner form one contiguous run: when `a < c < b` and `a`, `b` have the same owner,
`c` has that owner too. -/
theorem plic_irq_owner_defined_and_contiguous :
    (∀ id, 1 ≤ id → id ≤ 163 →
      ∃ p ∈ top_darjeeling_plic_peripheral.members,
        plic_owner? id = some p.value ∧
        p.value ≠ kTopDarjeelingPlicPeripheralUnknown ∧
        p.name ≠ "kTopDarjeelingPlicPeripheralUnknown") ∧
    (∀ a b c, 1 ≤ a → a < c → c < b → b ≤ 163 →
      plic_owner? a = plic_owner? b → plic_owner? c = plic_owner? a) := by
  refine ⟨?_, contiguous_of_adjacent plic_owner? 1 163 plic_owner_isSome plic_owner_adjacent⟩
  have h : ∀ id, id < 163 + 1 → 1 ≤ id →
      ∃ p ∈ top_darjeeling_plic_peripheral.members,
        plic_owner? id = some p.value ∧
        p.value ≠ kTopDarjeelingPlicPeripheralUnknown ∧
        p.name ≠ "kTopDarjeelingPlicPeripheralUnknown" := by
    decide!
  exact fun id h1 h2 => h id (by omega) h1

/-- Witness of C6: the interrupts 10 and 41 are both owned by `gpio`
(ordinal 2), and so is 25, which lies between them. -/
theorem plic_irq_owner_defined_and_contiguous_witness :
    plic_owner? 10 = plic_owner? 41 ∧ plic_owner? 25 = plic_owner? 10 ∧
    plic_owner? 10 = some 2 :=
  ⟨by decide!,
   plic_irq_owner_defined_and_contiguous.2 10 41 25 (by decide) (by decide) (by decide)
     (by decide) (by decide!),
   by decide!⟩

/-- C7: every alert ID of `[0, 104]` has an owning peripheral, an enumerator
of `top_darjeeling_alert_peripheral_t`; every integer of `[0, 104]` is the
value of exactly one named alert source; the alert IDs of one owner form one
contiguous run; and `kTopDarjeelingAlertIdLast` is 104, the greatest alert
ID. -/
theorem alert_id_owner_defined_and_contiguous :
    (∀ id, id ≤ 104 →
      ∃ p ∈ top_darjeeling_alert_peripheral.members, alert_owner? id = some p.value) ∧
    (∀ n, n ≤ 104 → (top_darjeeling_alert_id.named n).length = 1) ∧
    (∀ a b c, a < c → c < b → b ≤ 104 →
      alert_owner? a = alert_owner? b → alert_owner? c = alert_owner? a) ∧
    kTopDarjeelingAlertIdLast = 104 ∧
    top_darjeeling_alert_id.last =
      Enumerator.mk "kTopDarjeelingAlertIdLast" 104 "\\internal The Last Valid Alert ID." ∧
    (∀ v ∈ top_darjeeling_alert_id.values, v ≤ kTopDarjeelingAlertIdLast) ∧
    kTopDarjeelingAlertIdLast ∈ top_darjeeling_alert_id.values := by
  refine ⟨by decide!, by decide!, ?_, by decide!, by decide!, by decide!, by decide!⟩
  intro a b c hac hcb hb hab
  exact contiguous_of_adjacent alert_owner? 0 104 alert_owner_isSome alert_owner_adjacent
    a b c (Nat.zero_le a) hac hcb hb hab

/-- Witness of C7: the alerts 21 and 49 are both owned by `soc_proxy`
(ordinal 14), and so is 46, which lies between them. -/
theorem alert_id_owner_defined_and_contiguous_witness :
    alert_owner? 21 = alert_owner? 49 ∧ alert_owner? 46 = alert_owner? 21 ∧
    alert_owner? 21 = some 14 :=
  ⟨by decide!,
   alert_id_owner_defined_and_contiguous.2.2.1 21 49 46 (by decide) (by decide) (by decide)
     (by decide!),
   by decide!⟩

/-- C8: the declared length of each reverse-lookup table is `Last + 1` of its
ID enumeration: 164 entries for the interrupts and 105 for the alerts. -/
theorem reverse_table_declared_lengths :
    top_darjeeling_plic_interrupt_for_peripheral_len = 164 ∧
    top_darjeeling_plic_interrupt_for_peripheral_len = kTopDarjeelingPlicIrqIdLast + 1 ∧
    top_darjeeling_plic_interrupt_for_peripheral_len =
      top_darjeeling_plic_irq_id.last.value + 1 ∧
    top_darjeeling_alert_for_peripheral_len = 105 ∧
    top_darjeeling_alert_for_peripheral_len = kTopDarjeelingAlertIdLast + 1 ∧
    top_darjeeling_alert_for_peripheral_len = top_darjeeling_alert_id.last.value + 1 := by
  decide

theorem plic_table_entries :
    ∀ id, id < 163 + 1 → top_darjeeling_plic_interrupt_for_peripheral[id]? =
      some ((plic_owner? id).getD kTopDarjeelingPlicPeripheralUnknown) := by
  decide!

theorem alert_table_entries :
    ∀ id, id < 104 + 1 → top_darjeeling_alert_for_peripheral[id]? =
      some ((alert_owner? id).getD kTopDarjeelingAlertPeripheralExternal) := by
  decide!

/-- C9: the reverse tables agree with the forward enumerations index for
index.  Entry `id` of `top_darjeeling_plic_interrupt_for_peripheral` is the
owner of interrupt `id` for every `id` of `[1, 163]`, and
`kTopDarjeelingPlicPeripheralUnknown` for the ID 0 (`None`), which no
peripheral owns; entry `id` of `top_darjeeling_alert_for_peripheral` is the
owner of alert `id` for every `id` of `[0, 104]`. -/
theorem reverse_tables_match_forward_owner :
    (∀ id, 1 ≤ id → id ≤ 163 →
      (plic_owner? id).isSome = true ∧
      top_darjeeling_plic_interrupt_for_peripheral[id]? = plic_owner? id) ∧
    (plic_owner? 0 = none ∧
      top_darjeeling_plic_interrupt_for_peripheral[0]? =
        some kTopDarjeelingPlicPeripheralUnknown) ∧
    (∀ id, id ≤ 104 →
      (alert_owner? id).isSome = true ∧
      top_darjeeling_alert_for_peripheral[id]? = alert_owner? id) ∧
    top_darjeeling_plic_interrupt_for_peripheral.length = 163 + 1 ∧
    top_darjeeling_alert_for_peripheral.length = 104 + 1 := by
  refine ⟨?_, ⟨by decide!, by decide!⟩, ?_, by decide!, by decide!⟩
  · intro id h1 h2
    have hs := plic_owner_isSome id (by omega) h1
    refine ⟨hs, ?_⟩
    obtain ⟨v, hv⟩ := Option.isSome_iff_exists.mp hs
    rw [plic_table_entries id (by omega), hv, Option.getD_some]
  · intro id h2
    have hs := alert_owner_isSome id (by omega) (Nat.zero_le id)
    refine ⟨hs, ?_⟩
    obtain ⟨v, hv⟩ := Option.isSome_iff_exists.mp hs
    rw [alert_table_entries id (by omega), hv, Option.getD_some]

/-- Witness of C9 at the interrupt 163 (`ac_range_check`, ordinal 32) and at
the alert 104 (`rv_core_ibex`, ordinal 45). -/
theorem reverse_tables_match_forward_owner_witness :
    (top_darjeeling_plic_interrupt_for_peripheral[163]? = plic_owner? 163 ∧
      plic_owner? 163 = some 32) ∧
    (top_darjeeling_alert_for_peripheral[104]? = alert_owner? 104 ∧
      alert_owner? 104 = some 45) :=
  ⟨⟨(reverse_tables_match_forward_owner.1 163 (by decide) (by decide)).2, by decide!⟩,
   ⟨(reverse_tables_match_forward_owner.2.2.1 104 (by decide)).2, by decide!⟩⟩

/-- C10: `interrupt_owning_peripheral 1` is `uart0` (the source of value 1 is
`kTopDarjeelingPlicIrqIdUart0TxWatermark`); the lookup fails with `OutOfRange`
at 164 and at every ID above 163, and succeeds at every ID up to 163, the
greatest declared interrupt ID. -/
theorem interrupt_owning_peripheral_range :
    interrupt_owning_peripheral 1 = Except.ok kTopDarjeelingPlicPeripheralUart0 ∧
    top_darjeeling_plic_peripheral.named kTopDarjeelingPlicPeripheralUart0 =
      [Enumerator.mk "kTopDarjeelingPlicPeripheralUart0" 1 "uart0"] ∧
    top_darjeeling_plic_irq_id.named 1 =
      [Enumerator.mk "kTopDarjeelingPlicIrqIdUart0TxWatermark" 1 "uart0_tx_watermark"] ∧
    interrupt_owning_peripheral 164 = Except.error LookupError.OutOfRange ∧
    (∀ id, 163 < id →
      interrupt_owning_peripheral id = Except.error LookupError.OutOfRange) ∧
    (∀ id, id ≤ 163 → ∃ p, interrupt_owning_peripheral id = Except.ok p) := by
  have hlast : kTopDarjeelingPlicIrqIdLast = 163 := rfl
  have hgt : ∀ id, 163 < id →
      interrupt_owning_peripheral id = Except.error LookupError.OutOfRange := by
    intro id h
    unfold interrupt_owning_peripheral
    rw [if_pos (by rw [hlast]; exact h)]
  have hle : ∀ id, id ≤ 163 → interrupt_owning_peripheral id =
      Except.ok ((plic_owner? id).getD kTopDarjeelingPlicPeripheralUnknown) := by
    intro id h
    unfold interrupt_owning_peripheral
    rw [if_neg (by rw [hlast]; omega), plic_table_entries id (by omega)]
  refine ⟨?_, by decide!, by decide!, hgt 164 (by decide), hgt, fun id h => ⟨_, hle id h⟩⟩
  rw [hle 1 (by decide)]
  have h1 : plic_owner? 1 = some kTopDarjeelingPlicPeripheralUart0 := by decide!
  rw [h1, Option.getD_some]

/-- Witness of C10 at the ID 1000, above the greatest declared ID, and at the
ID 163, the greatest declared ID. -/
theorem interrupt_owning_peripheral_range_witness :
    interrupt_owning_peripheral 1000 = Except.error LookupError.OutOfRange ∧
    ∃ p, interrupt_owning_peripheral 163 = Except.ok p :=
  ⟨interrupt_owning_peripheral_range.2.2.2.2.1 1000 (by decide),
   interrupt_owning_peripheral_range.2.2.2.2.2 163 (by decide)⟩

/-! ## Lookups: helper lemmas -/

theorem alert_owning_peripheral_of_le (id : Nat) (h : id ≤ 104) :
    alert_owning_peripheral id =
      Except.ok ((alert_owner? id).getD kTopDarjeelingAlertPeripheralExternal) := by
  have hlast : kTopDarjeelingAlertIdLast = 104 := rfl
  unfold alert_owning_peripheral
  rw [if_neg (by rw [hlast]; omega), alert_table_entries id (by omega)]

theorem alert_owning_peripheral_of_gt (id : Nat) (h : 104 < id) :
    alert_owning_peripheral id = Except.error LookupError.OutOfRange := by
  have hlast : kTopDarjeelingAlertIdLast = 104 := rfl
  unfold alert_owning_peripheral
  rw [if_pos (by rw [hlast]; exact h)]

/-- Inside the declared range the accessor returns the identifier of the
enumerator that `find?` selects. -/
theorem CEnum.nameOf_of_find (E : CEnum) (n : Nat) (e : Enumerator)
    (hn : n ≤ E.last.value) (hf : E.members.find? (fun e => e.value == n) = some e) :
    E.nameOf n = Except.ok e.name := by
  unfold CEnum.nameOf
  rw [if_neg (by omega), hf]

theorem CEnum.nameOf_of_gt (E : CEnum) (n : Nat) (hn : E.last.value < n) :
    E.nameOf n = Except.error LookupError.OutOfRange := by
  unfold CEnum.nameOf
  rw [if_pos hn]

/-- When the values of an enumeration are `0, ..., Last`, its accessor is
defined exactly on the ordinals up to `Last`. -/
theorem CEnum.nameOf_ok_iff (E : CEnum) (h : E.values = List.range (E.last.value + 1))
    (n : Nat) : (∃ s, E.nameOf n = Except.ok s) ↔ n ≤ E.last.value := by
  by_cases hn : E.last.value < n
  · rw [CEnum.nameOf_of_gt E n hn]
    constructor
    · rintro ⟨s, hs⟩
      cases hs
    · intro h'
      omega
  · have hmem : n ∈ E.values := by
      rw [h]
      exact List.mem_range.mpr (by omega)
    obtain ⟨e, he, hv⟩ := List.mem_map.mp hmem
    have hsome : (E.members.find? (fun e => e.value == n)).isSome = true := by
      rw [List.find?_isSome]
      exact ⟨e, he, by rw [hv]; exact beq_self_eq_true n⟩
    obtain ⟨e', he'⟩ := Option.isSome_iff_exists.mp hsome
    exact ⟨fun _ => by omega, fun hle => ⟨e'.name, CEnum.nameOf_of_find E n e' hle he'⟩⟩

theorem enumerations_values :
    ∀ E ∈ enumerations, E.values = List.range (E.last.value + 1) := by
  decide!

theorem peripherals_find_by_name :
    ∀ r ∈ peripherals, peripherals.find? (fun q => q.name == r.name) = some r := by
  decide!

theorem peripherals_find_unknown (name : String)
    (h : name ∉ peripherals.map Region.name) :
    peripherals.find? (fun q => q.name == name) = none := by
  rw [List.find?_eq_none]
  intro x hx hp
  exact h (List.mem_map.mpr ⟨x, hx, by simpa using hp⟩)

theorem occursIn_iff (pat s : List Char) : occursIn pat s = true ↔ pat <:+: s := by
  simp only [occursIn, List.any_eq_true, List.mem_tails, List.isPrefixOf_iff_prefix,
    List.infix_iff_prefix_suffix]
  constructor
  · rintro ⟨t, h1, h2⟩
    exact ⟨t, h2, h1⟩
  · rintro ⟨t, h1, h2⟩
    exact ⟨t, h2, h1⟩

theorem alert_named_length :
    ∀ n, n < 104 + 1 → (top_darjeeling_alert_id.named n).length = 1 := by
  decide!

/-- In the doc comment of every alert source one of the markers `fatal` and
`recov` occurs and the other does not. -/
theorem alert_docs_marker :
    ∀ e ∈ top_darjeeling_alert_id.members,
      occursIn "fatal".toList e.doc.toList ≠ occursIn "recov".toList e.doc.toList := by
  decide!

/-- In the identifier of every alert source one of the markers `Fatal` and
`Recov` occurs and the other does not. -/
theorem alert_names_marker :
    ∀ e ∈ top_darjeeling_alert_id.members,
      occursIn "Fatal".toList e.name.toList ≠ occursIn "Recov".toList e.name.toList := by
  decide!

/-- When the occurrence tests of two markers differ, exactly one of the
markers occurs. -/
theorem exactly_one_of_ne (p q s : List Char) (h : occursIn p s ≠ occursIn q s) :
    (p <:+: s ∧ ¬ q <:+: s) ∨ (¬ p <:+: s ∧ q <:+: s) := by
  cases hp : occursIn p s <;> cases hq : occursIn q s
  · rw [hp, hq] at h
    exact absurd rfl h
  · right
    refine ⟨fun hin => ?_, (occursIn_iff _ _).mp hq⟩
    rw [(occursIn_iff _ _).mpr hin] at hp
    cases hp
  · left
    refine ⟨(occursIn_iff _ _).mp hp, fun hin => ?_⟩
    rw [(occursIn_iff _ _).mpr hin] at hq
    cases hq
  · rw [hp, hq] at h
    exact absurd rfl h

/-! ## Lookups and layout: the properties -/

/-- C11: `alert_owning_peripheral 0` is `uart0`: the alert of value 0 is
`kTopDarjeelingAlertIdUart0FatalFault`, a real alert whose owner is not the
`External` value 0 of the peripheral enumeration.  The lookup fails with
`OutOfRange` at 105 and at every ID above 104, and succeeds at every ID up to
104, the greatest declared alert ID. -/
theorem alert_owning_peripheral_range :
    alert_owning_peripheral 0 = Except.ok kTopDarjeelingAlertPeripheralUart0 ∧
    top_darjeeling_alert_peripheral.named kTopDarjeelingAlertPeripheralUart0 =
      [Enumerator.mk "kTopDarjeelingAlertPeripheralUart0" 1 "uart0"] ∧
    top_darjeeling_alert_id.named 0 =
      [Enumerator.mk "kTopDarjeelingAlertIdUart0FatalFault" 0 "uart0_fatal_fault"] ∧
    alert_owner? 0 = some kTopDarjeelingAlertPeripheralUart0 ∧
    kTopDarjeelingAlertPeripheralUart0 ≠ kTopDarjeelingAlertPeripheralExternal ∧
    alert_owning_peripheral 105 = Except.error LookupError.OutOfRange ∧
    (∀ id, 104 < id →
      alert_owning_peripheral id = Except.error LookupError.OutOfRange) ∧
    (∀ id, id ≤ 104 → ∃ p, alert_owning_peripheral id = Except.ok p) := by
  have h0 : alert_owner? 0 = some kTopDarjeelingAlertPeripheralUart0 := by decide!
  refine ⟨?_, by decide!, by decide!, h0, by decide, alert_owning_peripheral_of_gt 105 (by decide),
    alert_owning_peripheral_of_gt, fun id h => ⟨_, alert_owning_peripheral_of_le id h⟩⟩
  rw [alert_owning_peripheral_of_le 0 (by decide), h0, Option.getD_some]

/-- Witness of C11 at the ID 1000, above the greatest declared ID, and at the
ID 104, the greatest declared ID. -/
theorem alert_owning_peripheral_range_witness :
    alert_owning_peripheral 1000 = Except.error LookupError.OutOfRange ∧
    ∃ p, alert_owning_peripheral 104 = Except.ok p :=
  ⟨alert_owning_peripheral_range.2.2.2.2.2.2.1 1000 (by decide),
   alert_owning_peripheral_range.2.2.2.2.2.2.2 104 (by decide)⟩

/-- C12: the MMIO region `[0x21100000, 0x21100000 + 0xF501000)` contains the
base addresses of `aes` (`0x21100000`) and of the `cfg` device of
`rv_core_ibex` (`0x211F0000`), contains the whole ranges of `spi_device` and of
the retention SRAM `ram_ret_aon`, and contains none of the base addresses of
`rom0`, `rom1`, `ram_main` and `ram_mbox`. -/
theorem mmio_region_membership :
    TOP_DARJEELING_MMIO_BASE_ADDR = 0x21100000 ∧
    TOP_DARJEELING_MMIO_SIZE_BYTES = 0xF501000 ∧
    TOP_DARJEELING_AES_BASE_ADDR = 0x21100000 ∧
    mmio.contains TOP_DARJEELING_AES_BASE_ADDR ∧
    TOP_DARJEELING_RV_CORE_IBEX_CFG_BASE_ADDR = 0x211F0000 ∧
    mmio.contains TOP_DARJEELING_RV_CORE_IBEX_CFG_BASE_ADDR ∧
    (Region.mk "spi_device" "" TOP_DARJEELING_SPI_DEVICE_BASE_ADDR
      TOP_DARJEELING_SPI_DEVICE_SIZE_BYTES).within mmio ∧
    (Region.mk "ram_ret_aon" "" TOP_DARJEELING_RAM_RET_AON_BASE_ADDR
      TOP_DARJEELING_RAM_RET_AON_SIZE_BYTES).within mmio ∧
    ¬ mmio.contains TOP_DARJEELING_ROM0_BASE_ADDR ∧
    ¬ mmio.contains TOP_DARJEELING_ROM1_BASE_ADDR ∧
    ¬ mmio.contains TOP_DARJEELING_RAM_MAIN_BASE_ADDR ∧
    ¬ mmio.contains TOP_DARJEELING_RAM_MBOX_BASE_ADDR := by
  decide

/-- C13: in each of the sixteen enumerations of the header the values of the
named enumerators are exactly `0, 1, ..., Last`, each once and in declaration
order, and the `Last` alias (named by the tag followed by `Last`) has the
greatest value; hence the ordinal-to-name accessor is defined at `n` exactly
when `n ≤ Last`, and fails with `OutOfRange` above. -/
theorem enumerations_contiguous_and_accessor_range :
    enumerations.length = 16 ∧
    enumerations.map (fun E => E.last.value) =
      [kTopDarjeelingPlicPeripheralLast, kTopDarjeelingPlicIrqIdLast,
       kTopDarjeelingPlicTargetLast, kTopDarjeelingAlertPeripheralLast,
       kTopDarjeelingAlertIdLast, kTopDarjeelingPinmuxPeripheralInLast,
       kTopDarjeelingPinmuxInselLast, kTopDarjeelingPinmuxMioOutLast,
       kTopDarjeelingPinmuxOutselLast, kTopDarjeelingDirectPadsLast,
       kTopDarjeelingMuxedPadsLast, kTopDarjeelingPowerManagerWakeUpsLast,
       kTopDarjeelingResetManagerSwResetsLast,
       kTopDarjeelingPowerManagerResetRequestsLast, kTopDarjeelingGateableClocksLast,
       kTopDarjeelingHintableClocksLast] ∧
    enumerations.map (fun E => E.last.value) =
      [32, 163, 0, 45, 104, 3, 13, 11, 7, 72, 11, 3, 2, 1, 1, 3] ∧
    (∀ E ∈ enumerations, E.last.name = E.tag ++ "Last") ∧
    (∀ E ∈ enumerations, E.values = List.range (E.last.value + 1)) ∧
    (∀ E ∈ enumerations, E.values.Nodup) ∧
    (∀ E ∈ enumerations, E.last.value ∈ E.values ∧ ∀ v ∈ E.values, v ≤ E.last.value) ∧
    (∀ E ∈ enumerations, ∀ n, (∃ s, E.nameOf n = Except.ok s) ↔ n ≤ E.last.value) ∧
    (∀ E ∈ enumerations, ∀ n, E.last.value < n →
      E.nameOf n = Except.error LookupError.OutOfRange) := by
  refine ⟨by decide, by decide!, by decide!, by decide!, enumerations_values, ?_, ?_, ?_, ?_⟩
  · intro E hE
    rw [enumerations_values E hE]
    exact List.nodup_range _
  · intro E hE
    rw [enumerations_values E hE]
    refine ⟨List.mem_range.mpr (by omega), fun v hv => ?_⟩
    have := List.mem_range.mp hv
    omega
  · intro E hE n
    exact CEnum.nameOf_ok_iff E (enumerations_values E hE) n
  · intro E _ n hn
    exact CEnum.nameOf_of_gt E n hn

/-- Witness of C13 on `top_darjeeling_hintable_clocks_t`, whose `Last` is 3:
the accessor is defined at 2, where it returns
`kTopDarjeelingHintableClocksMainKmac`, and fails at 4. -/
theorem enumerations_contiguous_and_accessor_range_witness :
    (∃ s, top_darjeeling_hintable_clocks.nameOf 2 = Except.ok s) ∧
    top_darjeeling_hintable_clocks.nameOf 2 =
      Except.ok "kTopDarjeelingHintableClocksMainKmac" ∧
    top_darjeeling_hintable_clocks.nameOf 4 = Except.error LookupError.OutOfRange :=
  ⟨(enumerations_contiguous_and_accessor_range.2.2.2.2.2.2.2.1
      top_darjeeling_hintable_clocks (by simp [enumerations]) 2).mpr (by decide),
   CEnum.nameOf_of_find top_darjeeling_hintable_clocks 2
     (Enumerator.mk "kTopDarjeelingHintableClocksMainKmac" 2 "Clock clk_main_kmac in group trans")
     (by decide) (by decide!),
   enumerations_contiguous_and_accessor_range.2.2.2.2.2.2.2.2
      top_darjeeling_hintable_clocks (by simp [enumerations]) 4 (by decide)⟩

/-- C14: in `top_darjeeling_pinmux_insel_t` the value 0 is constant zero and
the value 1 is constant one, and for every MIO pad index `i` below
`NUM_MIO_PADS` the selector of pad `i` (`Mio<i>`, "MIO Pad i") is
`i + PINMUX_MIO_PERIPH_INSEL_IDX_OFFSET`, that is `i + 2`, where `i` is the
value of `Mio<i>` in `top_darjeeling_muxed_pads_t` and in
`top_darjeeling_pinmux_mio_out_t`; the selector values are
`0, ..., NUM_MIO_PADS + 2 - 1`, and the last one is
`kTopDarjeelingPinmuxInselLast`, 13. -/
theorem pinmux_insel_layout :
    top_darjeeling_pinmux_insel.named 0 =
      [Enumerator.mk "kTopDarjeelingPinmuxInselConstantZero" 0 "Tie constantly to zero"] ∧
    top_darjeeling_pinmux_insel.named 1 =
      [Enumerator.mk "kTopDarjeelingPinmuxInselConstantOne" 1 "Tie constantly to one"] ∧
    PINMUX_MIO_PERIPH_INSEL_IDX_OFFSET = 2 ∧
    NUM_MIO_PADS = 12 ∧
    (∀ i, i < NUM_MIO_PADS →
      (top_darjeeling_pinmux_insel.withStem ("Mio" ++ toString i)).map Enumerator.value =
        [i + PINMUX_MIO_PERIPH_INSEL_IDX_OFFSET] ∧
      (top_darjeeling_pinmux_insel.withDoc ("MIO Pad " ++ toString i)).map Enumerator.value =
        [i + PINMUX_MIO_PERIPH_INSEL_IDX_OFFSET] ∧
      (top_darjeeling_muxed_pads.withStem ("Mio" ++ toString i)).map Enumerator.value = [i] ∧
      (top_darjeeling_pinmux_mio_out.withStem ("Mio" ++ toString i)).map Enumerator.value =
        [i] ∧
      (top_darjeeling_pinmux_mio_out.withDoc ("MIO Pad " ++ toString i)).map Enumerator.value =
        [i]) ∧
    top_darjeeling_pinmux_insel.values = List.range (NUM_MIO_PADS + 2) ∧
    kTopDarjeelingPinmuxInselLast = NUM_MIO_PADS + 2 - 1 ∧
    kTopDarjeelingPinmuxInselLast = 13 ∧
    top_darjeeling_pinmux_insel.last.value = kTopDarjeelingPinmuxInselLast := by
  refine ⟨by decide!, by decide!, by decide, by decide, by decide!, by decide!, by decide,
    by decide, by decide!⟩

/-- Witness of C14 at the MIO pad 11, the last one: its input selector is 13,
and its value in the muxed pad enumeration is 11. -/
theorem pinmux_insel_layout_witness :
    (top_darjeeling_pinmux_insel.withStem "Mio11").map Enumerator.value = [13] ∧
    (top_darjeeling_muxed_pads.withStem "Mio11").map Enumerator.value = [11] :=
  ⟨(pinmux_insel_layout.2.2.2.2.1 11 (by decide)).1,
   (pinmux_insel_layout.2.2.2.2.1 11 (by decide)).2.2.1⟩

/-- C15: in `top_darjeeling_pinmux_outsel_t` the values 0, 1 and 2 are
constant zero, constant one and constant high-Z, and for every peripheral
output index `k` of `[0, 4]` ("Peripheral Output k": `soc_gpo` 12 to 15 of
`soc_proxy`, then test 0 of `otp_macro`) the selector value is
`k + PINMUX_PERIPH_OUTSEL_IDX_OFFSET`, that is `k + 3`; so
`kTopDarjeelingPinmuxOutselLast` is 7. -/
theorem pinmux_outsel_layout :
    top_darjeeling_pinmux_outsel.members.take 3 =
      [Enumerator.mk "kTopDarjeelingPinmuxOutselConstantZero" 0 "Tie constantly to zero",
       Enumerator.mk "kTopDarjeelingPinmuxOutselConstantOne" 1 "Tie constantly to one",
       Enumerator.mk "kTopDarjeelingPinmuxOutselConstantHighZ" 2 "Tie constantly to high-Z"] ∧
    top_darjeeling_pinmux_outsel.members.drop 3 =
      [Enumerator.mk "kTopDarjeelingPinmuxOutselSocProxySocGpo12" 3 "Peripheral Output 0",
       Enumerator.mk "kTopDarjeelingPinmuxOutselSocProxySocGpo13" 4 "Peripheral Output 1",
       Enumerator.mk "kTopDarjeelingPinmuxOutselSocProxySocGpo14" 5 "Peripheral Output 2",
       Enumerator.mk "kTopDarjeelingPinmuxOutselSocProxySocGpo15" 6 "Peripheral Output 3",
       Enumerator.mk "kTopDarjeelingPinmuxOutselOtpMacroTest0" 7 "Peripheral Output 4"] ∧
    PINMUX_PERIPH_OUTSEL_IDX_OFFSET = 3 ∧
    (∀ k, k ≤ 4 →
      (top_darjeeling_pinmux_outsel.withDoc ("Peripheral Output " ++ toString k)).map
        Enumerator.value = [k + PINMUX_PERIPH_OUTSEL_IDX_OFFSET]) ∧
    top_darjeeling_pinmux_outsel.values = List.range (4 + 3 + 1) ∧
    kTopDarjeelingPinmuxOutselLast = 4 + PINMUX_PERIPH_OUTSEL_IDX_OFFSET ∧
    kTopDarjeelingPinmuxOutselLast = 7 ∧
    top_darjeeling_pinmux_outsel.last.value = kTopDarjeelingPinmuxOutselLast := by
  refine ⟨by decide!, by decide!, by decide, ?_, by decide!, by decide, by decide, by decide!⟩
  have h : ∀ k, k < 4 + 1 →
      (top_darjeeling_pinmux_outsel.withDoc ("Peripheral Output " ++ toString k)).map
        Enumerator.value = [k + PINMUX_PERIPH_OUTSEL_IDX_OFFSET] := by
    decide!
  exact fun k hk => h k (by omega)

/-- Witness of C15 at the peripheral output 4 (test 0 of `otp_macro`), whose
selector is 7. -/
theorem pinmux_outsel_layout_witness :
    (top_darjeeling_pinmux_outsel.withDoc "Peripheral Output 4").map Enumerator.value = [7] :=
  pinmux_outsel_layout.2.2.2.1 4 (by decide)

/-- C16: the pad counts agree with the pad enumerations: `NUM_MIO_PADS`, 12, is
`kTopDarjeelingMuxedPadsLast + 1` and `kTopDarjeelingPinmuxMioOutLast + 1`, and
`NUM_DIO_PADS`, 73, is `kTopDarjeelingDirectPadsLast + 1`; they are the numbers
of named enumerators of these enumerations. -/
theorem pad_counts_agree :
    NUM_MIO_PADS = 12 ∧
    NUM_MIO_PADS = kTopDarjeelingMuxedPadsLast + 1 ∧
    NUM_MIO_PADS = kTopDarjeelingPinmuxMioOutLast + 1 ∧
    NUM_DIO_PADS = 73 ∧
    NUM_DIO_PADS = kTopDarjeelingDirectPadsLast + 1 ∧
    top_darjeeling_muxed_pads.last.value = kTopDarjeelingMuxedPadsLast ∧
    top_darjeeling_pinmux_mio_out.last.value = kTopDarjeelingPinmuxMioOutLast ∧
    top_darjeeling_direct_pads.last.value = kTopDarjeelingDirectPadsLast ∧
    top_darjeeling_muxed_pads.members.length = NUM_MIO_PADS ∧
    top_darjeeling_pinmux_mio_out.members.length = NUM_MIO_PADS ∧
    top_darjeeling_direct_pads.members.length = NUM_DIO_PADS := by
  refine ⟨by decide, by decide, by decide, by decide, by decide, by decide!, by decide!,
    by decide!, by decide!, by decide!, by decide!⟩

/-- C17: `peripheral_base_address "uart0"` is `0x30010000` and
`peripheral_size_bytes "uart0"` is `0x40`, the values of
`TOP_DARJEELING_UART0_BASE_ADDR` and `TOP_DARJEELING_UART0_SIZE_BYTES`. -/
theorem uart0_base_address_and_size :
    TOP_DARJEELING_UART0_BASE_ADDR = 0x30010000 ∧
    TOP_DARJEELING_UART0_SIZE_BYTES = 0x40 ∧
    peripheral_base_address "uart0" = Except.ok 0x30010000 ∧
    peripheral_size_bytes "uart0" = Except.ok 0x40 := by
  have hf : peripherals.find? (fun r => r.name == "uart0") =
      some (Region.mk "uart0" "" 0x30010000 0x40) := by decide!
  refine ⟨by decide, by decide, ?_, ?_⟩
  · unfold peripheral_base_address
    rw [hf]
  · unfold peripheral_size_bytes
    rw [hf]

/-- C18: the lookups by name return the constants of the region for every
name of the declared peripheral device regions, whose names are pairwise
different, and fail with `UnknownPeripheral` for every other name; the
base-address lookup and the size lookup succeed on the same names. -/
theorem peripheral_lookup_defined_on_declared_names :
    (peripherals.map Region.name).Nodup ∧
    (∀ r ∈ peripherals,
      peripheral_base_address r.name = Except.ok r.base ∧
      peripheral_size_bytes r.name = Except.ok r.size) ∧
    (∀ name, name ∉ peripherals.map Region.name →
      peripheral_base_address name = Except.error LookupError.UnknownPeripheral ∧
      peripheral_size_bytes name = Except.error LookupError.UnknownPeripheral) ∧
    (∀ name, (∃ v, peripheral_base_address name = Except.ok v) ↔
      name ∈ peripherals.map Region.name) ∧
    (∀ name, (∃ v, peripheral_base_address name = Except.ok v) ↔
      (∃ v, peripheral_size_bytes name = Except.ok v)) := by
  have hknown : ∀ r ∈ peripherals,
      peripheral_base_address r.name = Except.ok r.base ∧
      peripheral_size_bytes r.name = Except.ok r.size := by
    intro r hr
    unfold peripheral_base_address peripheral_size_bytes
    rw [peripherals_find_by_name r hr]
    exact ⟨rfl, rfl⟩
  have hunknown : ∀ name, name ∉ peripherals.map Region.name →
      peripheral_base_address name = Except.error LookupError.UnknownPeripheral ∧
      peripheral_size_bytes name = Except.error LookupError.UnknownPeripheral := by
    intro name hn
    unfold peripheral_base_address peripheral_size_bytes
    rw [peripherals_find_unknown name hn]
    exact ⟨rfl, rfl⟩
  have hbase : ∀ name, (∃ v, peripheral_base_address name = Except.ok v) ↔
      name ∈ peripherals.map Region.name := by
    intro name
    constructor
    · rintro ⟨v, hv⟩
      by_contra hn
      rw [(hunknown name hn).1] at hv
      cases hv
    · intro hn
      obtain ⟨r, hr, rfl⟩ := List.mem_map.mp hn
      exact ⟨r.base, (hknown r hr).1⟩
  have hsize : ∀ name, (∃ v, peripheral_size_bytes name = Except.ok v) ↔
      name ∈ peripherals.map Region.name := by
    intro name
    constructor
    · rintro ⟨v, hv⟩
      by_contra hn
      rw [(hunknown name hn).2] at hv
      cases hv
    · intro hn
      obtain ⟨r, hr, rfl⟩ := List.mem_map.mp hn
      exact ⟨r.size, (hknown r hr).2⟩
  exact ⟨by decide!, hknown, hunknown, hbase, fun name => (hbase name).trans (hsize name).symm⟩

/-- Witness of C18 at the `core` device of `otp_ctrl`, a declared region, and
at the names `uart1` and `rom0`, which name no peripheral device region. -/
theorem peripheral_lookup_defined_on_declared_names_witness :
    (peripheral_base_address "otp_ctrl_core" = Except.ok 0x30130000 ∧
      peripheral_size_bytes "otp_ctrl_core" = Except.ok 0x8000) ∧
    (peripheral_base_address "uart1" = Except.error LookupError.UnknownPeripheral ∧
      peripheral_size_bytes "uart1" = Except.error LookupError.UnknownPeripheral) ∧
    (peripheral_base_address "rom0" = Except.error LookupError.UnknownPeripheral ∧
      peripheral_size_bytes "rom0" = Except.error LookupError.UnknownPeripheral) :=
  ⟨peripheral_lookup_defined_on_declared_names.2.1
      (Region.mk "otp_ctrl" "core" 0x30130000 0x8000) (by decide!),
   peripheral_lookup_defined_on_declared_names.2.2.1 "uart1" (by decide!),
   peripheral_lookup_defined_on_declared_names.2.2.1 "rom0" (by decide!)⟩

/-- C19: every alert ID of `[0, 104]` has one named source, and the name of
that source contains exactly one of the two classification markers: in its
signal name (the doc comment, such as `uart0_fatal_fault`) one of `fatal` and
`recov` occurs and the other does not, and likewise one of `Fatal` and `Recov`
in its identifier. -/
theorem alert_names_fatal_or_recov :
    ∀ id, id ≤ 104 → ∃ e, top_darjeeling_alert_id.named id = [e] ∧
      (("fatal".toList <:+: e.doc.toList ∧ ¬ "recov".toList <:+: e.doc.toList) ∨
       (¬ "fatal".toList <:+: e.doc.toList ∧ "recov".toList <:+: e.doc.toList)) ∧
      (("Fatal".toList <:+: e.name.toList ∧ ¬ "Recov".toList <:+: e.name.toList) ∨
       (¬ "Fatal".toList <:+: e.name.toList ∧ "Recov".toList <:+: e.name.toList)) := by
  intro id hid
  obtain ⟨e, hn⟩ := List.length_eq_one.mp (alert_named_length id (by omega))
  have hmem : e ∈ top_darjeeling_alert_id.members := by
    have he : e ∈ top_darjeeling_alert_id.named id := by
      rw [hn]
      exact List.mem_singleton.mpr rfl
    exact (List.mem_filter.mp he).1
  exact ⟨e, hn, exactly_one_of_ne _ _ _ (alert_docs_marker e hmem),
    exactly_one_of_ne _ _ _ (alert_names_marker e hmem)⟩

/-- Witness of C19 at the alert 59, `otbn_recov`. -/
theorem alert_names_fatal_or_recov_witness :
    ∃ e, top_darjeeling_alert_id.named 59 = [e] ∧
      (("fatal".toList <:+: e.doc.toList ∧ ¬ "recov".toList <:+: e.doc.toList) ∨
       (¬ "fatal".toList <:+: e.doc.toList ∧ "recov".toList <:+: e.doc.toList)) ∧
      (("Fatal".toList <:+: e.name.toList ∧ ¬ "Recov".toList <:+: e.name.toList) ∨
       (¬ "Fatal".toList <:+: e.name.toList ∧ "Recov".toList <:+: e.name.toList)) :=
  alert_names_fatal_or_recov 59 (by decide)

/-- C20: each of the six memory regions has the base address and the size of
one peripheral device region, the memory device of its controller (`ctn` of
`soc_proxy`, `ram` of `sram_ctrl_ret_aon`, `sram_ctrl_main` and
`sram_ctrl_mbox`, `rom` of `rom_ctrl0` and `rom_ctrl1`), and is disjoint from
every other peripheral device region. -/
theorem memory_regions_coincide_with_memory_devices :
    memories.map Region.module = memoryAliasPairs.map (fun t => t.2.2) ∧
    (TOP_DARJEELING_CTN_BASE_ADDR = TOP_DARJEELING_SOC_PROXY_CTN_BASE_ADDR ∧
      TOP_DARJEELING_CTN_SIZE_BYTES = TOP_DARJEELING_SOC_PROXY_CTN_SIZE_BYTES) ∧
    (TOP_DARJEELING_RAM_RET_AON_BASE_ADDR = TOP_DARJEELING_SRAM_CTRL_RET_AON_RAM_BASE_ADDR ∧
      TOP_DARJEELING_RAM_RET_AON_SIZE_BYTES =
        TOP_DARJEELING_SRAM_CTRL_RET_AON_RAM_SIZE_BYTES) ∧
    (TOP_DARJEELING_RAM_MAIN_BASE_ADDR = TOP_DARJEELING_SRAM_CTRL_MAIN_RAM_BASE_ADDR ∧
      TOP_DARJEELING_RAM_MAIN_SIZE_BYTES = TOP_DARJEELING_SRAM_CTRL_MAIN_RAM_SIZE_BYTES) ∧
    (TOP_DARJEELING_RAM_MBOX_BASE_ADDR = TOP_DARJEELING_SRAM_CTRL_MBOX_RAM_BASE_ADDR ∧
      TOP_DARJEELING_RAM_MBOX_SIZE_BYTES = TOP_DARJEELING_SRAM_CTRL_MBOX_RAM_SIZE_BYTES) ∧
    (TOP_DARJEELING_ROM0_BASE_ADDR = TOP_DARJEELING_ROM_CTRL0_ROM_BASE_ADDR ∧
      TOP_DARJEELING_ROM0_SIZE_BYTES = TOP_DARJEELING_ROM_CTRL0_ROM_SIZE_BYTES) ∧
    (TOP_DARJEELING_ROM1_BASE_ADDR = TOP_DARJEELING_ROM_CTRL1_ROM_BASE_ADDR ∧
      TOP_DARJEELING_ROM1_SIZE_BYTES = TOP_DARJEELING_ROM_CTRL1_ROM_SIZE_BYTES) ∧
    (∀ m ∈ memories, ∃ p ∈ peripherals,
      p.aliasIn memoryAliasPairs m = true ∧ p.coincides m ∧
      ∀ q ∈ peripherals, q ≠ p → ∀ x, ¬ (q.contains x ∧ m.contains x)) := by
  have h : ∀ m ∈ memories, ∃ p ∈ peripherals,
      p.aliasIn memoryAliasPairs m = true ∧ p.coincides m ∧
      ∀ q ∈ peripherals, q ≠ p → q.apart m = true := by
    decide!
  refine ⟨by decide!, by decide, by decide, by decide, by decide, by decide, by decide, ?_⟩
  intro m hm
  obtain ⟨p, hp, ha, hc, hq⟩ := h m hm
  exact ⟨p, hp, ha, hc, fun q hq' hne => Region.disjoint_of_apart (hq q hq' hne)⟩

/-- Witness of C20 at the memory region `ram_main`: some peripheral device
region forms an alias pair with it and coincides with it, and every other one
is disjoint from it. -/
theorem memory_regions_coincide_with_memory_devices_witness :
    ∃ p ∈ peripherals,
      p.aliasIn memoryAliasPairs (Region.mk "ram_main" "" 0x10000000 0x10000) = true ∧
      p.coincides (Region.mk "ram_main" "" 0x10000000 0x10000) ∧
      ∀ q ∈ peripherals, q ≠ p →
        ∀ x, ¬ (q.contains x ∧ (Region.mk "ram_main" "" 0x10000000 0x10000).contains x) :=
  memory_regions_coincide_with_memory_devices.2.2.2.2.2.2.2
    (Region.mk "ram_main" "" 0x10000000 0x10000) (by decide!)

/-! ## MMIO, alignment and owners: helper lemmas -/

theorem Region.subset_of_within {a b : Region} (h : a.within b) :
    ∀ x, a.contains x → b.contains x := by
  intro x hx
  obtain ⟨h1, h2⟩ := h
  obtain ⟨h3, h4⟩ := hx
  exact ⟨by omega, by omega⟩

theorem Region.aligned_spec {r : Region} (h : r.aligned = true) :
    (∃ k, r.size = 2 ^ k) ∧ r.base % r.size = 0 := by
  simp only [Region.aligned, Region.sizeIsPow2, Bool.and_eq_true, List.any_eq_true,
    beq_iff_eq] at h
  obtain ⟨⟨k, _, hk⟩, hmod⟩ := h
  exact ⟨⟨k, hk⟩, hmod⟩

theorem regions_aligned :
    ∀ r ∈ peripherals ++ memories, r.aligned = true := by
  decide!

theorem regions_end32 :
    ∀ r ∈ peripherals ++ memories ++ [mmio],
      r.base < 2 ^ 32 ∧ r.size < 2 ^ 32 ∧ r.base + r.size ≤ 2 ^ 32 ∧
      r.end32 = r.base + r.size ∧ r.base < r.end32 := by
  decide!

theorem peripherals_within_or_apart_mmio :
    ∀ r ∈ peripherals,
      (decide (r.within mmio) = true ∧
        r.name ∉ ["rv_dm_mem", "rom_ctrl0_rom", "rom_ctrl1_rom", "sram_ctrl_main_ram",
          "sram_ctrl_mbox_ram", "soc_proxy_ctn"]) ∨
      (r.apart mmio = true ∧
        r.name ∈ ["rv_dm_mem", "rom_ctrl0_rom", "rom_ctrl1_rom", "sram_ctrl_main_ram",
          "sram_ctrl_mbox_ram", "soc_proxy_ctn"]) := by
  decide!

/-- The owners of the interrupt IDs `0, ..., 163`, as runs: no owner for the ID
0, then 9 IDs of owner 1, 32 IDs of owner 2, and so on up to owner 32. -/
theorem plic_owner_run_lengths :
    (List.range (163 + 1)).map plic_owner? = none :: expandRuns
      [(1, 9), (2, 32), (3, 8), (4, 15), (5, 1), (6, 2), (7, 4), (8, 2), (9, 1), (10, 2),
       (11, 32), (12, 3), (13, 3), (14, 1), (15, 1), (16, 4), (17, 4), (18, 2), (19, 2),
       (20, 3), (21, 3), (22, 3), (23, 3), (24, 3), (25, 3), (26, 3), (27, 3), (28, 3),
       (29, 3), (30, 3), (31, 1), (32, 1)] := by
  decide!

/-- The owners of the alert IDs `0, ..., 104`, as runs, from owner 1 to owner
45. -/
theorem alert_owner_run_lengths :
    (List.range (104 + 1)).map alert_owner? = expandRuns
      [(1, 1), (2, 1), (3, 1), (4, 1), (5, 1), (6, 5), (7, 3), (8, 1), (9, 1), (10, 2),
       (11, 2), (12, 1), (13, 1), (14, 29), (15, 1), (16, 1), (17, 1), (18, 2), (19, 1),
       (20, 2), (21, 2), (22, 2), (23, 2), (24, 2), (25, 2), (26, 2), (27, 1), (28, 1),
       (29, 1), (30, 1), (31, 1), (32, 2), (33, 2), (34, 2), (35, 2), (36, 2), (37, 2),
       (38, 2), (39, 2), (40, 2), (41, 2), (42, 2), (43, 2), (44, 2), (45, 4)] := by
  decide!

theorem plic_owner_onto :
    ∀ p, p < 32 + 1 → 1 ≤ p → some p ∈ (List.range (163 + 1)).map plic_owner? := by
  rw [plic_owner_run_lengths]
  decide!

theorem alert_owner_onto :
    ∀ p, p < 45 + 1 → 1 ≤ p → some p ∈ (List.range (104 + 1)).map alert_owner? := by
  rw [alert_owner_run_lengths]
  decide!

theorem plic_owner_bounds :
    ∀ i, i < 163 + 1 → 1 ≤ i →
      1 ≤ (plic_owner? i).getD 0 ∧ (plic_owner? i).getD 0 ≤ 32 := by
  decide!

theorem alert_owner_bounds :
    ∀ i, i < 104 + 1 →
      1 ≤ (alert_owner? i).getD 0 ∧ (alert_owner? i).getD 0 ≤ 45 := by
  decide!

theorem shared_modules_ordinals :
    ∀ m ∈ top_darjeeling_plic_peripheral.modules,
      m ∈ top_darjeeling_alert_peripheral.modules →
        (top_darjeeling_plic_peripheral.ordinalOf? m).isSome = true ∧
        (top_darjeeling_alert_peripheral.ordinalOf? m).isSome = true ∧
        (top_darjeeling_plic_peripheral.ordinalOf? m).getD 0 ≤
          (top_darjeeling_alert_peripheral.ordinalOf? m).getD 0 := by
  decide!

theorem modules_with_regions :
    ∀ m ∈ top_darjeeling_plic_peripheral.modules ++ top_darjeeling_alert_peripheral.modules,
      m = "racl_ctrl" ∨ m = "ac_range_check" ∨ m ∈ peripherals.map Region.module := by
  decide!

/-! ## MMIO, alignment and owners: the properties -/

/-- C21: every peripheral device region lies wholly inside the MMIO region
`[TOP_DARJEELING_MMIO_BASE_ADDR, TOP_DARJEELING_MMIO_BASE_ADDR +
TOP_DARJEELING_MMIO_SIZE_BYTES)` or wholly outside it, none straddles its
boundary, and the regions outside are exactly six: the `mem` device of `rv_dm`,
the `rom` devices of `rom_ctrl0` and `rom_ctrl1`, the `ram` devices of
`sram_ctrl_main` and `sram_ctrl_mbox`, and the `ctn` device of `soc_proxy`. -/
theorem peripherals_inside_or_outside_mmio :
    (∀ r ∈ peripherals,
      ((∀ x, r.contains x → mmio.contains x) ∧
        r.name ∉ ["rv_dm_mem", "rom_ctrl0_rom", "rom_ctrl1_rom", "sram_ctrl_main_ram",
          "sram_ctrl_mbox_ram", "soc_proxy_ctn"]) ∨
      ((∀ x, r.contains x → ¬ mmio.contains x) ∧
        r.name ∈ ["rv_dm_mem", "rom_ctrl0_rom", "rom_ctrl1_rom", "sram_ctrl_main_ram",
          "sram_ctrl_mbox_ram", "soc_proxy_ctn"])) ∧
    (peripherals.filter (fun r => !decide (r.within mmio))).map Region.name =
      ["soc_proxy_ctn", "rv_dm_mem", "sram_ctrl_main_ram", "sram_ctrl_mbox_ram",
       "rom_ctrl0_rom", "rom_ctrl1_rom"] ∧
    (peripherals.filter (fun r => decide (r.within mmio))).length = 47 ∧
    (∀ r ∈ peripherals, 0 < r.size) := by
  refine ⟨?_, by decide!, by decide!, by decide!⟩
  intro r hr
  rcases peripherals_within_or_apart_mmio r hr with ⟨hin, hn⟩ | ⟨hout, hn⟩
  · left
    exact ⟨Region.subset_of_within (of_decide_eq_true hin), hn⟩
  · right
    exact ⟨fun x hx hm => Region.disjoint_of_apart hout x ⟨hx, hm⟩, hn⟩

/-- Witness of C21 at `uart0`, which lies inside the MMIO region, for its
address `0x30010004`. -/
theorem peripherals_inside_or_outside_mmio_witness :
    ((∀ x, (Region.mk "uart0" "" 0x30010000 0x40).contains x → mmio.contains x) ∧
      (Region.mk "uart0" "" 0x30010000 0x40).name ∉
        ["rv_dm_mem", "rom_ctrl0_rom", "rom_ctrl1_rom", "sram_ctrl_main_ram",
          "sram_ctrl_mbox_ram", "soc_proxy_ctn"]) ∨
    ((∀ x, (Region.mk "uart0" "" 0x30010000 0x40).contains x → ¬ mmio.contains x) ∧
      (Region.mk "uart0" "" 0x30010000 0x40).name ∈
        ["rv_dm_mem", "rom_ctrl0_rom", "rom_ctrl1_rom", "sram_ctrl_main_ram",
          "sram_ctrl_mbox_ram", "soc_proxy_ctn"]) :=
  peripherals_inside_or_outside_mmio.1 (Region.mk "uart0" "" 0x30010000 0x40) (by decide!)

/-- C22: the MMIO region is the tight hull of the peripheral device regions
inside it: every such region starts at or after
`TOP_DARJEELING_MMIO_BASE_ADDR` and ends at or before
`TOP_DARJEELING_MMIO_BASE_ADDR + TOP_DARJEELING_MMIO_SIZE_BYTES`; the least
base address is attained by `aes`, `0x21100000`, and the greatest end address
by the `ram` device of `sram_ctrl_ret_aon`, `0x30600000 + 0x1000`. -/
theorem mmio_is_tight_hull :
    (∀ r ∈ peripherals, r.within mmio →
      TOP_DARJEELING_MMIO_BASE_ADDR ≤ r.base ∧
      r.base + r.size ≤ TOP_DARJEELING_MMIO_BASE_ADDR + TOP_DARJEELING_MMIO_SIZE_BYTES) ∧
    ((peripherals.filter (fun r => decide (r.within mmio))).map Region.base).min? =
      some TOP_DARJEELING_MMIO_BASE_ADDR ∧
    ((peripherals.filter (fun r => decide (r.within mmio))).map
        (fun r => r.base + r.size)).max? =
      some (TOP_DARJEELING_MMIO_BASE_ADDR + TOP_DARJEELING_MMIO_SIZE_BYTES) ∧
    (∃ r ∈ peripherals, r.within mmio ∧ r.name = "aes" ∧
      r.base = TOP_DARJEELING_MMIO_BASE_ADDR) ∧
    (∃ r ∈ peripherals, r.within mmio ∧ r.name = "sram_ctrl_ret_aon_ram" ∧
      r.base + r.size = TOP_DARJEELING_MMIO_BASE_ADDR + TOP_DARJEELING_MMIO_SIZE_BYTES) ∧
    TOP_DARJEELING_MMIO_BASE_ADDR = TOP_DARJEELING_AES_BASE_ADDR ∧
    TOP_DARJEELING_AES_BASE_ADDR = 0x21100000 ∧
    TOP_DARJEELING_MMIO_BASE_ADDR + TOP_DARJEELING_MMIO_SIZE_BYTES =
      TOP_DARJEELING_SRAM_CTRL_RET_AON_RAM_BASE_ADDR +
        TOP_DARJEELING_SRAM_CTRL_RET_AON_RAM_SIZE_BYTES ∧
    TOP_DARJEELING_SRAM_CTRL_RET_AON_RAM_BASE_ADDR = 0x30600000 ∧
    TOP_DARJEELING_SRAM_CTRL_RET_AON_RAM_SIZE_BYTES = 0x1000 ∧
    TOP_DARJEELING_MMIO_BASE_ADDR + TOP_DARJEELING_MMIO_SIZE_BYTES = 0x30601000 := by
  refine ⟨fun r _ h => h, by decide!, by decide!, by decide!, by decide!, by decide, by decide,
    by decide, by decide, by decide, by decide⟩

/-- Witness of C22 at `spi_device`, a region inside the MMIO region. -/
theorem mmio_is_tight_hull_witness :
    TOP_DARJEELING_MMIO_BASE_ADDR ≤ 0x30310000 ∧
    0x30310000 + 0x2000 ≤ TOP_DARJEELING_MMIO_BASE_ADDR + TOP_DARJEELING_MMIO_SIZE_BYTES :=
  mmio_is_tight_hull.1 (Region.mk "spi_device" "" 0x30310000 0x2000) (by decide!) (by decide!)

/-- C23: every peripheral device region and every memory region is naturally
aligned: its size is a power of two and its base address is a multiple of its
size. -/
theorem regions_naturally_aligned :
    ∀ r ∈ peripherals ++ memories,
      (∃ k, r.size = 2 ^ k) ∧ r.size ∣ r.base ∧ r.base % r.size = 0 := by
  intro r hr
  obtain ⟨hpow, hmod⟩ := Region.aligned_spec (regions_aligned r hr)
  exact ⟨hpow, Nat.dvd_of_mod_eq_zero hmod, hmod⟩

/-- Witness of C23 at the `core` device of `mbx1`, at `0x22000100` with the
size `0x80`. -/
theorem regions_naturally_aligned_witness :
    (∃ k, 0x80 = 2 ^ k) ∧ 0x80 ∣ 0x22000100 ∧ 0x22000100 % 0x80 = 0 :=
  regions_naturally_aligned (Region.mk "mbx1" "core" 0x22000100 0x80) (by decide!)

/-- C24: for every peripheral device region, every memory region and the MMIO
region, the base address and the size fit in 32 bits and `base + size` does
not exceed `2 ^ 32`; the end address computed in 32-bit unsigned arithmetic is
`base + size`, without wrap-around, and is greater than the base address. -/
theorem region_ends_do_not_wrap :
    ∀ r ∈ peripherals ++ memories ++ [mmio],
      r.base < 2 ^ 32 ∧ r.size < 2 ^ 32 ∧ r.base + r.size ≤ 2 ^ 32 ∧
      r.end32 = r.base + r.size ∧ r.base < r.end32 :=
  regions_end32

/-- Witness of C24 at the `ctn` device of `soc_proxy`, the region with the
greatest end address, `0x80000000`. -/
theorem region_ends_do_not_wrap_witness :
    (0x40000000 : Nat) < 2 ^ 32 ∧ (0x40000000 : Nat) < 2 ^ 32 ∧
    0x40000000 + 0x40000000 ≤ 2 ^ 32 ∧
    (Region.mk "soc_proxy" "ctn" 0x40000000 0x40000000).end32 = 0x40000000 + 0x40000000 ∧
    0x40000000 < (Region.mk "soc_proxy" "ctn" 0x40000000 0x40000000).end32 :=
  region_ends_do_not_wrap (Region.mk "soc_proxy" "ctn" 0x40000000 0x40000000) (by decide!)

/-- C25: the owning PLIC peripheral is a non-decreasing function of the
interrupt ID that maps `[1, 163]` onto `[1, 32]`.  No peripheral is named by
the ID 0 (`None`), so that 0 is the only ID of `[0, 163]` whose owner is
`kTopDarjeelingPlicPeripheralUnknown`; every ID of `[1, 163]` has an owner in
`[1, kTopDarjeelingPlicPeripheralLast]`; every ordinal of that range owns at
least one interrupt; and `a ≤ b` gives `owner a ≤ owner b`. -/
theorem plic_owner_monotone_onto :
    kTopDarjeelingPlicPeripheralLast = 32 ∧
    plic_owner? kTopDarjeelingPlicIrqIdNone = none ∧
    (∀ id, 1 ≤ id → id ≤ 163 →
      ∃ p, plic_owner? id = some p ∧ 1 ≤ p ∧ p ≤ kTopDarjeelingPlicPeripheralLast) ∧
    (∀ id, id ≤ 163 →
      ((plic_owner? id).getD kTopDarjeelingPlicPeripheralUnknown =
        kTopDarjeelingPlicPeripheralUnknown ↔ id = 0)) ∧
    (∀ p, 1 ≤ p → p ≤ kTopDarjeelingPlicPeripheralLast →
      ∃ id, 1 ≤ id ∧ id ≤ 163 ∧ plic_owner? id = some p) ∧
    (∀ a b, a ≤ b → b ≤ 163 →
      (plic_owner? a).getD kTopDarjeelingPlicPeripheralUnknown ≤
        (plic_owner? b).getD kTopDarjeelingPlicPeripheralUnknown) := by
  have hU : kTopDarjeelingPlicPeripheralUnknown = 0 := rfl
  have hL : kTopDarjeelingPlicPeripheralLast = 32 := rfl
  have h0 : plic_owner? 0 = none := by decide!
  have hsome : ∀ id, 1 ≤ id → id ≤ 163 →
      ∃ p, plic_owner? id = some p ∧ 1 ≤ p ∧ p ≤ 32 := by
    intro id h1 h2
    obtain ⟨v, hv⟩ := Option.isSome_iff_exists.mp (plic_owner_isSome id (by omega) h1)
    have hb := plic_owner_bounds id (by omega) h1
    rw [hv, Option.getD_some] at hb
    exact ⟨v, hv, hb.1, hb.2⟩
  refine ⟨hL, h0, ?_, ?_, ?_, ?_⟩
  · intro id h1 h2
    rw [hL]
    exact hsome id h1 h2
  · intro id h2
    rw [hU]
    constructor
    · intro hz
      by_contra hne
      obtain ⟨p, hp, hp1, _⟩ := hsome id (by omega) h2
      rw [hp, Option.getD_some] at hz
      omega
    · intro hz
      rw [hz, h0]
      rfl
  · intro p hp1 hp2
    rw [hL] at hp2
    obtain ⟨id, hid, hp⟩ := List.mem_map.mp (plic_owner_onto p (by omega) hp1)
    have hlt := List.mem_range.mp hid
    refine ⟨id, ?_, by omega, hp⟩
    by_contra hne
    have hz : id = 0 := by omega
    rw [hz, h0] at hp
    cases hp
  · intro a b hab hb
    rw [hU]
    by_cases ha : a = 0
    · rw [ha, h0]
      exact Nat.zero_le _
    · exact mono_of_adjacent (fun i => (plic_owner? i).getD 0) 1 163 plic_owner_adjacent
        a b (by omega) hab hb

/-- Witness of C25: the peripheral 20 (`dma`) owns an interrupt of
`[1, 163]`, and the owner of the interrupt 65 is at most the owner of the
interrupt 66. -/
theorem plic_owner_monotone_onto_witness :
    (∃ id, 1 ≤ id ∧ id ≤ 163 ∧ plic_owner? id = some 20) ∧
    (plic_owner? 65).getD kTopDarjeelingPlicPeripheralUnknown ≤
      (plic_owner? 66).getD kTopDarjeelingPlicPeripheralUnknown :=
  ⟨plic_owner_monotone_onto.2.2.2.2.1 20 (by decide) (by decide),
   plic_owner_monotone_onto.2.2.2.2.2 65 66 (by decide) (by decide)⟩

/-- C26: the owning alert peripheral is a non-decreasing function of the alert
ID that maps `[0, 104]` onto `[1, 45]`: every alert ID has an owner in
`[1, kTopDarjeelingAlertPeripheralLast]`, so none is owned by
`kTopDarjeelingAlertPeripheralExternal`; every ordinal of that range owns at
least one alert; and `a ≤ b` gives `owner a ≤ owner b`. -/
theorem alert_owner_monotone_onto :
    kTopDarjeelingAlertPeripheralLast = 45 ∧
    kTopDarjeelingAlertPeripheralExternal = 0 ∧
    (∀ id, id ≤ 104 →
      ∃ p, alert_owner? id = some p ∧ 1 ≤ p ∧ p ≤ kTopDarjeelingAlertPeripheralLast) ∧
    (∀ id, id ≤ 104 → alert_owner? id ≠ some kTopDarjeelingAlertPeripheralExternal) ∧
    (∀ p, 1 ≤ p → p ≤ kTopDarjeelingAlertPeripheralLast →
      ∃ id, id ≤ 104 ∧ alert_owner? id = some p) ∧
    (∀ a b p q, a ≤ b → b ≤ 104 → alert_owner? a = some p → alert_owner? b = some q →
      p ≤ q) := by
  have hE : kTopDarjeelingAlertPeripheralExternal = 0 := rfl
  have hL : kTopDarjeelingAlertPeripheralLast = 45 := rfl
  have hsome : ∀ id, id ≤ 104 →
      ∃ p, alert_owner? id = some p ∧ 1 ≤ p ∧ p ≤ 45 := by
    intro id h2
    obtain ⟨v, hv⟩ :=
      Option.isSome_iff_exists.mp (alert_owner_isSome id (by omega) (Nat.zero_le id))
    have hb := alert_owner_bounds id (by omega)
    rw [hv, Option.getD_some] at hb
    exact ⟨v, hv, hb.1, hb.2⟩
  refine ⟨hL, hE, ?_, ?_, ?_, ?_⟩
  · intro id h2
    rw [hL]
    exact hsome id h2
  · intro id h2 heq
    obtain ⟨p, hp, hp1, _⟩ := hsome id h2
    rw [hp, hE] at heq
    have : p = 0 := Option.some.inj heq
    omega
  · intro p hp1 hp2
    rw [hL] at hp2
    obtain ⟨id, hid, hp⟩ := List.mem_map.mp (alert_owner_onto p (by omega) hp1)
    have hlt := List.mem_range.mp hid
    exact ⟨id, by omega, hp⟩
  · intro a b p q hab hb hp hq
    have h := mono_of_adjacent (fun i => (alert_owner? i).getD 0) 0 104 alert_owner_adjacent
      a b (Nat.zero_le a) hab hb
    simp only [hp, hq, Option.getD_some] at h
    exact h

/-- Witness of C26: the alert peripheral 14 (`soc_proxy`) owns an alert, and
the owner of the alert 20 (13) is at most the owner of the alert 21 (14). -/
theorem alert_owner_monotone_onto_witness :
    (∃ id, id ≤ 104 ∧ alert_owner? id = some 14) ∧
    alert_owner? 20 = some 13 ∧ alert_owner? 21 = some 14 ∧ 13 ≤ 14 :=
  ⟨alert_owner_monotone_onto.2.2.2.2.1 14 (by decide) (by decide),
   by decide!, by decide!,
   alert_owner_monotone_onto.2.2.2.2.2 20 21 13 14 (by decide) (by decide)
     (by decide!) (by decide!)⟩

/-- C27: the PLIC peripheral enumeration and the alert peripheral enumeration
list the modules they share in the same relative order, and the alert ordinal
of a shared module is at least its PLIC ordinal.  The numberings differ: the
ordinal 7 is `alert_handler` in the PLIC enumeration and `lc_ctrl` in the alert
enumeration, and `hmac` is 12 in the former and 19 in the latter.
`alert_handler` is the only module of the PLIC enumeration that the alert
enumeration does not name. -/
theorem peripheral_enumerations_shared_order :
    top_darjeeling_plic_peripheral.modules.filter
        (fun m => decide (m ∈ top_darjeeling_alert_peripheral.modules)) =
      top_darjeeling_alert_peripheral.modules.filter
        (fun m => decide (m ∈ top_darjeeling_plic_peripheral.modules)) ∧
    top_darjeeling_plic_peripheral.modules.Nodup ∧
    top_darjeeling_alert_peripheral.modules.Nodup ∧
    (∀ m ∈ top_darjeeling_plic_peripheral.modules,
      m ∈ top_darjeeling_alert_peripheral.modules →
        ∃ p a, top_darjeeling_plic_peripheral.ordinalOf? m = some p ∧
          top_darjeeling_alert_peripheral.ordinalOf? m = some a ∧ p ≤ a) ∧
    top_darjeeling_plic_peripheral.named 7 =
      [Enumerator.mk "kTopDarjeelingPlicPeripheralAlertHandler" 7 "alert_handler"] ∧
    top_darjeeling_alert_peripheral.named 7 =
      [Enumerator.mk "kTopDarjeelingAlertPeripheralLcCtrl" 7 "lc_ctrl"] ∧
    top_darjeeling_plic_peripheral.ordinalOf? "hmac" = some 12 ∧
    top_darjeeling_alert_peripheral.ordinalOf? "hmac" = some 19 ∧
    top_darjeeling_plic_peripheral.modules.filter
        (fun m => decide (m ∉ top_darjeeling_alert_peripheral.modules)) =
      ["alert_handler"] ∧
    top_darjeeling_plic_peripheral.modules.length = 32 ∧
    top_darjeeling_alert_peripheral.modules.length = 45 := by
  refine ⟨by decide!, by decide!, by decide!, ?_, by decide!, by decide!, by decide!,
    by decide!, by decide!, by decide!, by decide!⟩
  intro m hm ha
  obtain ⟨h1, h2, h3⟩ := shared_modules_ordinals m hm ha
  obtain ⟨p, hp⟩ := Option.isSome_iff_exists.mp h1
  obtain ⟨a, hq⟩ := Option.isSome_iff_exists.mp h2
  rw [hp, hq] at h3
  exact ⟨p, a, hp, hq, h3⟩

/-- Witness of C27 at the shared module `dma`, of ordinal 20 in the PLIC
enumeration and 31 in the alert enumeration. -/
theorem peripheral_enumerations_shared_order_witness :
    ∃ p a, top_darjeeling_plic_peripheral.ordinalOf? "dma" = some p ∧
      top_darjeeling_alert_peripheral.ordinalOf? "dma" = some a ∧ p ≤ a :=
  peripheral_enumerations_shared_order.2.2.2.1 "dma" (by decide!) (by decide!)

/-- C28: among the modules named by the PLIC peripheral enumeration (ordinals
1 to 32) and by the alert peripheral enumeration (ordinals 1 to 45), exactly
`racl_ctrl` and `ac_range_check` have no device region, that is no
`*_BASE_ADDR` and `*_SIZE_BYTES` constants; every other module named by either
enumeration has at least one declared device region. -/
theorem modules_without_device_regions :
    top_darjeeling_plic_peripheral.modules.filter
        (fun m => decide (m ∉ peripherals.map Region.module)) =
      ["racl_ctrl", "ac_range_check"] ∧
    top_darjeeling_alert_peripheral.modules.filter
        (fun m => decide (m ∉ peripherals.map Region.module)) =
      ["racl_ctrl", "ac_range_check"] ∧
    (∀ r ∈ peripherals ++ memories,
      r.module ≠ "racl_ctrl" ∧ r.module ≠ "ac_range_check") ∧
    (∀ m ∈ top_darjeeling_plic_peripheral.modules ++ top_darjeeling_alert_peripheral.modules,
      m ≠ "racl_ctrl" → m ≠ "ac_range_check" → ∃ r ∈ peripherals, r.module = m) := by
  refine ⟨by decide!, by decide!, by decide!, ?_⟩
  intro m hm h1 h2
  rcases modules_with_regions m hm with h | h | h
  · exact absurd h h1
  · exact absurd h h2
  · obtain ⟨r, hr, hrm⟩ := List.mem_map.mp h
    exact ⟨r, hr, hrm⟩

/-- Witness of C28 at the module `rv_core_ibex`, named by the alert
enumeration only, which has a device region. -/
theorem modules_without_device_regions_witness :
    ∃ r ∈ peripherals, r.module = "rv_core_ibex" :=
  modules_without_device_regions.2.2.2 "rv_core_ibex" (by decide!) (by decide!) (by decide!)

end TopDarjeeling
